import Mathlib

/-! RepSnapper: layer iteration, bounding box and cutting-plane cache.

A shallow embedding of `src/model.cpp` and of `Slicer::displayInfillOld` from
`src/slicer/slicer_draw.cpp`.

Modelling conventions.

* A C++ `double` is an exact rational (`ℚ`): rounding, infinities and NaN are
  not modelled.  Division follows Lean (`x / 0 = 0`); the program divides by
  `zStep` (in `LayerCount₀`), by `zSize` (in `sel_Layer`) and by the constant
  `2.0` (in `CalcBoundingBoxAndCenter`).
* A C++ `uint` is a natural number below `2 ^ 32`; `uint` arithmetic wraps.
* The OpenGL calls and the Gtk signals have no effect on the modelled state and
  are left out.  Calls into the geometry code (`CalcCuttingPlane`,
  `MakePolygons`, `MakeShells`, `CalcInfill`, `Draw`) are recorded with their
  arguments instead of being executed.
* Functions of the repository that the two source files call but do not define
  are fields of `External`.
-/

namespace Repsnapper

/-! ## Vectors and matrices (vmmlib) -/

/-- A `Vector3d`. -/
structure Vector3d where
  x : ℚ
  y : ℚ
  z : ℚ
deriving DecidableEq

/-- A `Vector2d`. -/
structure Vector2d where
  x : ℚ
  y : ℚ
deriving DecidableEq

/-- A `Vector4d`. -/
structure Vector4d where
  x : ℚ
  y : ℚ
  z : ℚ
  w : ℚ
deriving DecidableEq

/-- Componentwise `a + b`. -/
def Vector3d.add (a b : Vector3d) : Vector3d := ⟨a.x + b.x, a.y + b.y, a.z + b.z⟩

/-- Componentwise `a - b`. -/
def Vector3d.sub (a b : Vector3d) : Vector3d := ⟨a.x - b.x, a.y - b.y, a.z - b.z⟩

/-- Division of every component by a scalar, `a / s`. -/
def Vector3d.divScalar (a : Vector3d) (s : ℚ) : Vector3d := ⟨a.x / s, a.y / s, a.z / s⟩

/-- A `Matrix4d`.  The modelled code reads and writes only the translation
column (`getTranslation`, `setTranslation`); the other entries are carried
along unchanged. -/
structure Matrix4d where
  translation : Vector3d
  entries : List ℚ
deriving DecidableEq

/-- The accessor `Matrix4d::getTranslation`. -/
def Matrix4d.getTranslation (M : Matrix4d) : Vector3d := M.translation

/-- The mutator `Matrix4d::setTranslation`. -/
def Matrix4d.setTranslation (M : Matrix4d) (t : Vector3d) : Matrix4d :=
  { M with translation := t }

/-- The member `transform3D` of shapes, objects and the tree. -/
structure Transform3D where
  transform : Matrix4d
deriving DecidableEq

/-! ## Machine integers -/

/-- Number of values of a 32-bit `uint`. -/
def UINT_RANGE : ℕ := 4294967296

/-- Conversion of an integer value to `uint`.  Values in `[0, 2 ^ 32)` convert
to themselves, which is all C++ defines for the cast `(uint)ceil(..)`; the
other values are reduced modulo `2 ^ 32`. -/
def toUint (i : ℤ) : ℕ := (i % (UINT_RANGE : ℤ)).toNat

/-- The cast `(uint)ceil(x)` of the program. -/
def uintCeil (x : ℚ) : ℕ := toUint ⌈x⌉

/-! ## Settings -/

/-- The two shrink algorithms named by `settings.Slicing.ShrinkQuality`. -/
inductive ShrinkQuality where
  | SHRINK_FAST
  | SHRINK_LOGICK
deriving DecidableEq

/-- The fields of `settings.Hardware` that the modelled code reads. -/
structure HardwareSettings where
  LayerThickness : ℚ
  ExtrudedMaterialWidth : ℚ
  Volume : Vector3d
  PrintMargin : Vector3d
deriving DecidableEq

/-- The fields of `settings.Slicing` that the modelled code reads. -/
structure SlicingSettings where
  ShellCount : ℕ
  Skins : ℕ
  SkirtHeight : ℚ
  InfillDistance : ℚ
  AltInfillDistance : ℚ
  InfillRotation : ℚ
  InfillRotationPrLayer : ℚ
  ShellOnly : Bool
  Optimization : ℚ
  ShrinkQuality : ShrinkQuality
deriving DecidableEq

/-- The fields of `settings.Display` that the modelled code reads. -/
structure DisplaySettings where
  CuttingPlaneValue : ℚ
  DisplayAllLayers : Bool
  DisplayinFill : Bool
  DisplayDebuginFill : Bool
  DisplayCuttingPlane : Bool
deriving DecidableEq

/-- The `Settings` object. -/
structure Settings where
  Hardware : HardwareSettings
  Slicing : SlicingSettings
  Display : DisplaySettings
deriving DecidableEq

/-! ## Shapes, the object tree and cutting planes -/

/-- A `Shape`: its local bounds and its transform. -/
structure Shape where
  Min : Vector3d
  Max : Vector3d
  transform3D : Transform3D
deriving DecidableEq

/-- A `TreeObject`: a group of shapes. -/
structure TreeObject where
  shapes : List Shape
  transform3D : Transform3D
deriving DecidableEq

/-- The `ObjectsTree` held in `Model::objtree`. -/
structure ObjectsTree where
  Objects : List TreeObject
  transform3D : Transform3D
deriving DecidableEq

/-- A `CuttingPlane` as far as the modelled code sees it: the layer number and
thickness given to the constructor, the height set by `setZ` and read by
`getZ`, and the geometry (segments, polygons, shells) as a payload that only
the geometry code interprets. -/
structure CuttingPlane where
  LayerNo : ℕ
  thickness : ℚ
  Z : ℚ
  geometry : List (List Vector2d)
deriving DecidableEq

/-- The constructor `CuttingPlane(LayerNr, thickness)`. -/
def CuttingPlane.new (LayerNr : ℕ) (thickness : ℚ) : CuttingPlane :=
  ⟨LayerNr, thickness, 0, []⟩

/-- The mutator `CuttingPlane::setZ`. -/
def CuttingPlane.setZ (p : CuttingPlane) (z : ℚ) : CuttingPlane := { p with Z := z }

/-- The accessor `CuttingPlane::getZ`. -/
def CuttingPlane.getZ (p : CuttingPlane) : ℚ := p.Z

/-- The state of a `Model` that the modelled member functions read or write. -/
structure Model where
  settings : Settings
  objtree : ObjectsTree
  cuttingplanes : List CuttingPlane
  gcode : List String
  Min : Vector3d
  Max : Vector3d
  Center : Vector3d
deriving DecidableEq

/-! ## Functions defined outside the two source files -/

/-- The functions of the repository and of its libraries that `model.cpp` and
`slicer_draw.cpp` call without defining them. -/
structure External where
  /-- The method `settings.Hardware.GetExtrudedMaterialWidth(thickness)`. -/
  GetExtrudedMaterialWidth : HardwareSettings → ℚ → ℚ
  /-- The method `settings.Slicing.GetAltInfillLayers(layers, LayerCount)`: the
  entries it appends to the empty vector `layers`. -/
  GetAltInfillLayers : SlicingSettings → ℕ → List ℤ
  /-- The method `objtree.GetSTLTransformationMatrix(i, j)`. -/
  GetSTLTransformationMatrix : ObjectsTree → ℕ → ℕ → Matrix4d
  /-- The product `M * v` of a `Matrix4d` and a `Vector3d`. -/
  mulPoint : Matrix4d → Vector3d → Vector3d
  /-- The method `objtree.newObject()`. -/
  newObject : ObjectsTree → ObjectsTree
  /-- The method `objtree.addShape(parent, shape, name)`, with `parent` given
  as its index in `Objects`. -/
  addShape : ObjectsTree → ℕ → Shape → String → ObjectsTree
  /-- The method `Shape::load(path)`: the shape read and the return code. -/
  load : String → Shape × ℤ
  /-- The method `settings.load_settings(file)`. -/
  load_settings : Settings → String → Settings
  /-- The method `objtree.DeleteSelected(iter)`. -/
  DeleteSelected : ObjectsTree → List ℕ → ObjectsTree
  /-- The method `Shape::Scale(scale)`. -/
  Scale : Shape → ℚ → Shape
  /-- The method `Shape::Rotate(axis, angle)`. -/
  Rotate : Shape → Vector3d → ℚ → Shape
  /-- The method `Shape::OptimizeRotation()`. -/
  OptimizeRotation : Shape → Shape
  /-- The method `CuttingPlane::ClearShrink()`. -/
  ClearShrink : CuttingPlane → CuttingPlane
  /-- The method `CuttingPlane::ShrinkFast(width, optimization,
  displayCuttingPlane, useFillets, shellCount)`. -/
  ShrinkFast : CuttingPlane → ℚ → ℚ → Bool → Bool → ℕ → CuttingPlane
  /-- The method `CuttingPlane::CalcInFill(distance, rotation, rotationPrLayer,
  debug)`: the vertices of the list it allocates. -/
  CalcInFill : CuttingPlane → ℚ → ℚ → ℚ → Bool → List Vector2d

/-! ## `Model::drawCuttingPlanes` -/

/-- The test `std::find(altInfillLayers.begin(), altInfillLayers.end(), LayerNr)
!= altInfillLayers.end()`: the `int` entries are compared with the `uint`
layer number, so each entry is converted to `uint` first. -/
def isAltInfillLayer (altInfillLayers : List ℤ) (LayerNr : ℕ) : Bool :=
  altInfillLayers.any (fun e => decide (toUint e = LayerNr))

/-- Arguments of one call `plane->MakeShells(..)`, in call order. -/
structure MakeShellsCall where
  ShellCount : ℕ
  matwidth : ℚ
  Optimization : ℚ
  makeskirt : Bool
  skins : ℕ
  useFillets : Bool
deriving DecidableEq

/-- Arguments of one call `plane->CalcInfill(..)`, in call order. -/
structure CalcInfillCall where
  InfillDistance : ℚ
  FullInfillDistance : ℚ
  InfillRotation : ℚ
  InfillRotationPrLayer : ℚ
  ShellOnly : Bool
  DisplayDebuginFill : Bool
deriving DecidableEq

/-- What one pass of the loop does with a temporary plane: the plane built,
the material width, the shapes `(o, f)` handed to `CalcCuttingPlane`, the call
to `MakeShells`, and, when `DisplayinFill` is on, the value the local
`infilldist` is given and the call to `CalcInfill`. -/
structure SlicedPlane where
  plane : CuttingPlane
  matwidth : ℚ
  calcCuttingPlane : List (ℕ × ℕ)
  makeShells : MakeShellsCall
  infilldist : Option ℚ
  calcInfill : Option CalcInfillCall
deriving DecidableEq

/-- One pass of the `while` loop. -/
inductive DrawnPlane where
  /-- The stored plane `cuttingplanes[LayerNr]` was drawn. -/
  | cached (LayerNr : ℕ) (plane : CuttingPlane)
  /-- The index `LayerNr` is past the end of `cuttingplanes`. -/
  | outOfRange (LayerNr : ℕ)
  /-- A temporary plane was sliced, drawn and deleted. -/
  | sliced (p : SlicedPlane)
deriving DecidableEq

/-- The flag `have_planes`. -/
def have_planes (m : Model) : Bool := decide (m.cuttingplanes.length > 0)

/-- The local `zStep`. -/
def zStep (m : Model) : ℚ := m.settings.Hardware.LayerThickness

/-- The local `zSize`. -/
def zSize (m : Model) : ℚ := m.Max.z - m.Min.z

/-- The first value of the local `LayerCount`,
`(uint)ceil((zSize + zStep*0.5)/zStep)`.  The quotient is exact here and
rounded in the program, so the two can differ when the exact quotient is
within rounding distance of an integer; for `zStep = 0` the program's quotient
is infinite or NaN and its cast undefined, where this value is `0`. -/
def LayerCount₀ (m : Model) : ℕ := uintCeil ((zSize m + zStep m * (1 / 2)) / zStep m)

/-- The local `sel_Z`. -/
def sel_Z (m : Model) : ℚ := m.settings.Display.CuttingPlaneValue * zSize m

/-- The local `sel_Layer`.  The product and the quotient are exact here and
rounded in the program; for `zSize = 0` the program computes `0/0`, where this
value is `0`. -/
def sel_Layer (m : Model) : ℕ :=
  if have_planes m then
    uintCeil (m.settings.Display.CuttingPlaneValue * ((m.cuttingplanes.length - 1 : ℕ) : ℚ))
  else
    uintCeil ((LayerCount₀ m : ℚ) * sel_Z m / zSize m)

/-- The final value of the local `LayerCount`, `sel_Layer + 1` in `uint`. -/
def LayerCount (m : Model) : ℕ := (sel_Layer m + 1) % UINT_RANGE

/-- The value of `LayerNr` on entry to the loop. -/
def firstLayerNr (m : Model) : ℕ :=
  if m.settings.Display.DisplayAllLayers then 0 else sel_Layer m

/-- The value of `z` on entry to the loop. -/
def firstZ (m : Model) : ℚ :=
  if m.settings.Display.DisplayAllLayers then m.Min.z + (1 / 2) * zStep m
  else m.Min.z + sel_Z m

/-- The shapes `objtree.Objects[o].shapes[f]` with their indices `(o, f)`, in
the order of the two nested `for` loops over them. -/
def indexedShapes (t : ObjectsTree) : List (ℕ × ℕ × Shape) :=
  (t.Objects.enum).flatMap (fun io => (io.2.shapes.enum).map (fun js => (io.1, js.1, js.2)))

/-- The index pairs `(o, f)` visited by the two nested `for` loops. -/
def shapeIndices (t : ObjectsTree) : List (ℕ × ℕ) :=
  (indexedShapes t).map (fun e => (e.1, e.2.1))

/-- The `else` branch of the loop body: the work done for a temporary plane
with number `LayerNr` at height `z`. -/
def slicePlane (E : External) (m : Model) (altInfillLayers : List ℤ) (LayerNr : ℕ) (z : ℚ) :
    SlicedPlane :=
  let plane := (CuttingPlane.new LayerNr m.settings.Hardware.LayerThickness).setZ z
  let matwidth := E.GetExtrudedMaterialWidth m.settings.Hardware plane.thickness
  let makeskirt : Bool := decide (plane.getZ ≤ m.settings.Slicing.SkirtHeight)
  let skins := m.settings.Slicing.Skins
  let shells : MakeShellsCall :=
    ⟨m.settings.Slicing.ShellCount, matwidth, m.settings.Slicing.Optimization, makeskirt, skins,
      false⟩
  let infill : Option (ℚ × CalcInfillCall) :=
    if m.settings.Display.DisplayinFill then
      let fullInfillDistance := matwidth
      let infillDistance := fullInfillDistance * (1 + m.settings.Slicing.InfillDistance)
      let altInfillDistance := fullInfillDistance * (1 + m.settings.Slicing.AltInfillDistance)
      let infilldist : ℚ :=
        if isAltInfillLayer altInfillLayers LayerNr then altInfillDistance else infillDistance
      some (infilldist,
        ⟨infillDistance, fullInfillDistance, m.settings.Slicing.InfillRotation,
          m.settings.Slicing.InfillRotationPrLayer, m.settings.Slicing.ShellOnly,
          m.settings.Display.DisplayDebuginFill⟩)
    else none
  ⟨plane, matwidth, shapeIndices m.objtree, shells, infill.map Prod.fst, infill.map Prod.snd⟩

/-- The `while (LayerNr < LayerCount)` loop.  The first argument bounds the
number of passes; `LayerCount - LayerNr` passes are enough, because `LayerNr`
grows by one in every pass.  The step `z += zStep` is an exact sum here and a
rounded one in the program. -/
def drawLoop (E : External) (m : Model) (altInfillLayers : List ℤ) (LayerCount : ℕ) :
    ℕ → ℕ → ℚ → List DrawnPlane
  | 0, _, _ => []
  | fuel + 1, LayerNr, z =>
    if LayerNr < LayerCount then
      if have_planes m then
        match m.cuttingplanes.get? LayerNr with
        | some plane =>
          DrawnPlane.cached LayerNr plane ::
            drawLoop E m altInfillLayers LayerCount fuel (LayerNr + 1) (plane.getZ + zStep m)
        | none => [DrawnPlane.outOfRange LayerNr]
      else
        DrawnPlane.sliced (slicePlane E m altInfillLayers LayerNr z) ::
          drawLoop E m altInfillLayers LayerCount fuel (LayerNr + 1) (z + zStep m)
    else []

/-- The member function `Model::drawCuttingPlanes`: the passes of its loop, in
order. -/
def drawCuttingPlanes (E : External) (m : Model) : List DrawnPlane :=
  let altInfillLayers := E.GetAltInfillLayers m.settings.Slicing (LayerCount m)
  drawLoop E m altInfillLayers (LayerCount m) (LayerCount m - firstLayerNr m) (firstLayerNr m)
    (firstZ m)

/-- The temporary plane of a pass, if the pass sliced one. -/
def DrawnPlane.sliced? : DrawnPlane → Option SlicedPlane
  | DrawnPlane.sliced p => some p
  | _ => none

/-! ## `Model::CalcBoundingBoxAndCenter` -/

/-- The glib constant `G_MINDOUBLE`, which is `DBL_MIN`: the smallest positive
normalised `double`, `2 ^ (-1022)`. -/
def G_MINDOUBLE : ℚ := 1 / 2 ^ 1022

/-- The glib constant `G_MAXDOUBLE`, which is `DBL_MAX`: the largest finite
`double`, `(2 ^ 53 - 1) * 2 ^ 971`. -/
def G_MAXDOUBLE : ℚ := (2 ^ 53 - 1) * 2 ^ 971

/-- The glib macro `MIN(a, b)`, `((a) < (b)) ? (a) : (b)`. -/
def MIN (a b : ℚ) : ℚ := if a < b then a else b

/-- The glib macro `MAX(a, b)`, `((a) > (b)) ? (a) : (b)`. -/
def MAX (a b : ℚ) : ℚ := if a > b then a else b

/-- The transformed corners `(stlMin, stlMax)` of every shape, in loop order:
`M * shape.Min` and `M * shape.Max` with
`M = objtree.GetSTLTransformationMatrix(i, j)`. -/
def transformedBounds (E : External) (t : ObjectsTree) : List (Vector3d × Vector3d) :=
  (indexedShapes t).map (fun e =>
    let M := E.GetSTLTransformationMatrix t e.1 e.2.1
    (E.mulPoint M e.2.2.Min, E.mulPoint M e.2.2.Max))

/-- The body of the loop over `k`: one shape folded into `(newMin, newMax)`. -/
def boundsStep (acc : Vector3d × Vector3d) (stl : Vector3d × Vector3d) : Vector3d × Vector3d :=
  (⟨MIN stl.1.x acc.1.x, MIN stl.1.y acc.1.y, MIN stl.1.z acc.1.z⟩,
   ⟨MAX stl.2.x acc.2.x, MAX stl.2.y acc.2.y, MAX stl.2.z acc.2.z⟩)

/-- The locals `(newMin, newMax)` after the loops over all shapes. -/
def newBounds (E : External) (t : ObjectsTree) : Vector3d × Vector3d :=
  (transformedBounds E t).foldl boundsStep
    (⟨G_MAXDOUBLE, G_MAXDOUBLE, G_MAXDOUBLE⟩, ⟨G_MINDOUBLE, G_MINDOUBLE, G_MINDOUBLE⟩)

/-- The member function `Model::CalcBoundingBoxAndCenter`.  `Min` and `Max` are
copies of input values; `Center` is an exact sum and quotient here and a
rounded one in the program. -/
def CalcBoundingBoxAndCenter (E : External) (m : Model) : Model :=
  let newMin := (newBounds E m.objtree).1
  let newMax := (newBounds E m.objtree).2
  let m₁ : Model :=
    if newMin.x > newMax.x then
      let pM := m.settings.Hardware.PrintMargin
      let Max := (m.settings.Hardware.Volume.sub pM).sub pM
      { m with Min := ⟨0, 0, 0⟩, Max := { Max with z := 0 } }
    else
      { m with Max := newMax, Min := newMin }
  { m₁ with Center := (m₁.Max.add m₁.Min).divScalar 2 }

/-- The member function `Model::ModelChanged`. -/
def ModelChanged (E : External) (m : Model) : Model := CalcBoundingBoxAndCenter E m

/-- The member function `Model::ClearGCode`. -/
def ClearGCode (m : Model) : Model := { m with gcode := [] }

/-- The member function `Model::ClearCuttingPlanes`: every stored plane is
cleared and the list is emptied. -/
def ClearCuttingPlanes (m : Model) : Model := { m with cuttingplanes := [] }

/-! ## `Model::FindEmptyLocation` -/

/-- The comparison `ClosestToOrigin(a, b)`, on exact squares and sums; the
program rounds them and can overflow. -/
def ClosestToOrigin (a b : Vector3d) : Bool :=
  decide (a.x * a.x + a.y * a.y + a.z * a.z < b.x * b.x + b.y * b.y + b.z * b.z)

/-- The pairs `(minpos[j], maxpos[j])` collected from the shapes of the tree. -/
def objectPositions (t : ObjectsTree) : List (Vector3d × Vector3d) :=
  (indexedShapes t).map (fun e =>
    let p := e.2.2.transform3D.transform.getTranslation
    let size := e.2.2.Max.sub e.2.2.Min
    (⟨p.x, p.y, p.z⟩, ⟨p.x + size.x, p.y + size.y, p.z⟩))

/-- The vector `candidates` before it is sorted; `d` is the spacing. -/
def candidatePositions (d : ℚ) (positions : List (Vector3d × Vector3d)) : List Vector3d :=
  ⟨0, 0, 0⟩ :: positions.flatMap (fun mm =>
    [⟨mm.2.x + d, mm.1.y, mm.2.z⟩, ⟨mm.1.x, mm.2.y + d, mm.2.z⟩, ⟨mm.2.x + d, mm.2.y + d, mm.2.z⟩])

/-- The collision test of candidate `c` against one existing shape. -/
def collides (d : ℚ) (StlDelta c : Vector3d) (mm : Vector3d × Vector3d) : Bool :=
  ((decide (mm.1.x ≤ c.x) && decide (c.x ≤ mm.2.x)) ||
   (decide (c.x ≤ mm.1.x) && decide (mm.2.x ≤ c.x + StlDelta.x + d)) ||
   (decide (mm.1.x ≤ c.x + StlDelta.x + d) && decide (c.x + StlDelta.x + d ≤ mm.2.x)))
  &&
  ((decide (mm.1.y ≤ c.y) && decide (c.y ≤ mm.2.y)) ||
   (decide (c.y ≤ mm.1.y) && decide (mm.2.y ≤ c.y + StlDelta.y + d)) ||
   (decide (mm.1.y ≤ c.y + StlDelta.y + d) && decide (c.y + StlDelta.y + d ≤ mm.2.y)))

/-- The volume boundary test of candidate `c`. -/
def outsideVolume (h : HardwareSettings) (StlDelta c : Vector3d) : Bool :=
  decide (c.x + StlDelta.x > h.Volume.x - 2 * h.PrintMargin.x) ||
  decide (c.y + StlDelta.y > h.Volume.y - 2 * h.PrintMargin.y)

/-- The loop over `k` for one candidate: the value of `ok` when it ends. -/
def candidateOk (h : HardwareSettings) (d : ℚ) (StlDelta c : Vector3d) :
    List (Vector3d × Vector3d) → Bool
  | [] => true
  | mm :: rest =>
    if collides d StlDelta c mm then false
    else if outsideVolume h StlDelta c then false
    else candidateOk h d StlDelta c rest

/-- The member function `Model::FindEmptyLocation`: `some result` when it
returns `true`, `none` when it returns `false`.  `std::sort` is an insertion
sort here, one of the orders the comparison allows; among candidates of equal
squared distance the library may pick another order. -/
def FindEmptyLocation (m : Model) (shape : Shape) : Option Vector3d :=
  let positions := objectPositions m.objtree
  let d : ℚ := 5
  let StlDelta := shape.Max.sub shape.Min
  let candidates :=
    (candidatePositions d positions).insertionSort (fun a b => ClosestToOrigin b a = false)
  candidates.find? (fun c => candidateOk m.settings.Hardware d StlDelta c positions)

/-! ## The member functions that change the mesh set or the settings -/

/-- The objects of a list with the one at index `n` replaced by its image. -/
def modifyAt {α : Type} (f : α → α) : List α → ℕ → List α
  | [], _ => []
  | a :: as, 0 => f a :: as
  | a :: as, n + 1 => a :: modifyAt f as n

/-- A shape of the tree, addressed as `Objects[o].shapes[f]`, replaced by its
image. -/
def modifyShape (g : Shape → Shape) (t : ObjectsTree) (o f : ℕ) : ObjectsTree :=
  { t with Objects := modifyAt (fun ob => { ob with shapes := modifyAt g ob.shapes f }) t.Objects o }

/-- The part of `filename` after its last `/` or `\`, as
`filename.substr(filename.find_last_of("/\\") + 1)`. -/
def baseName (filename : String) : String :=
  String.mk ((filename.toList.reverse.takeWhile
    (fun c => c ≠ Char.ofNat 47 ∧ c ≠ Char.ofNat 92)).reverse)

/-- The member function `Model::AddStl`.  `parent` is the index of the parent
object in `objtree.Objects`, `none` for a null pointer; the result is the new
model and the place `(o, f)` of the returned shape. -/
def AddStl (E : External) (m : Model) (parent : Option ℕ) (shape : Shape) (filename : String) :
    Model × (ℕ × ℕ) :=
  let tree₁ : ObjectsTree :=
    match parent with
    | some _ => m.objtree
    | none => if m.objtree.Objects.length ≤ 0 then E.newObject m.objtree else m.objtree
  let parentIdx : ℕ :=
    match parent with
    | some i => i
    | none => tree₁.Objects.length - 1
  let found_location := FindEmptyLocation { m with objtree := tree₁ } shape
  let tree₂ := E.addShape tree₁ parentIdx shape (baseName filename)
  let last : ℕ := ((tree₂.Objects.get? parentIdx).map (fun o => o.shapes.length - 1)).getD 0
  let tree₃ : ObjectsTree :=
    match found_location with
    | some found =>
      modifyShape (fun s => { s with transform3D := ⟨s.transform3D.transform.setTranslation found⟩ })
        tree₂ parentIdx last
    | none => tree₂
  (CalcBoundingBoxAndCenter E { m with objtree := tree₃ }, (parentIdx, last))

/-- The member function `Model::ReadStl`. -/
def ReadStl (E : External) (m : Model) (file : String) : Model :=
  let stl := E.load file
  let m₁ := if stl.2 = 0 then (AddStl E m none stl.1 file).1 else m
  ClearCuttingPlanes (ModelChanged E m₁)

/-- The member function `Model::LoadConfig`. -/
def LoadConfig (E : External) (m : Model) (file : String) : Model :=
  ModelChanged E { m with settings := E.load_settings m.settings file }

/-- The member function `Model::ScaleObject`.  `shape` is the place `(o, f)` of
the shape in the tree, `none` for a null pointer. -/
def ScaleObject (E : External) (m : Model) (shape : Option (ℕ × ℕ)) (scale : ℚ) : Model :=
  match shape with
  | none => m
  | some (o, f) =>
    CalcBoundingBoxAndCenter E
      { m with objtree := modifyShape (fun s => E.Scale s scale) m.objtree o f }

/-- The member function `Model::RotateObject`. -/
def RotateObject (E : External) (m : Model) (shape : Option (ℕ × ℕ)) (rotate : Vector4d) : Model :=
  let rot : Vector3d := ⟨rotate.x, rotate.y, rotate.z⟩
  match shape with
  | none => m
  | some (o, f) =>
    CalcBoundingBoxAndCenter E
      { m with objtree := modifyShape (fun s => E.Rotate s rot rotate.w) m.objtree o f }

/-- The member function `Model::OptimizeRotation`. -/
def OptimizeRotation (E : External) (m : Model) (shape : Option (ℕ × ℕ)) : Model :=
  match shape with
  | none => m
  | some (o, f) =>
    CalcBoundingBoxAndCenter E
      { m with objtree := modifyShape (fun s => E.OptimizeRotation s) m.objtree o f }

/-- The member function `Model::DeleteObjTree`. -/
def DeleteObjTree (E : External) (m : Model) (iter : List ℕ) : Model :=
  CalcBoundingBoxAndCenter E
    (ClearCuttingPlanes (ClearGCode { m with objtree := E.DeleteSelected m.objtree iter }))

/-! ## `Slicer::displayInfillOld` -/

/-- One call `infillCuttingPlane.CalcInFill(..)`: the plane it is called on and
its arguments, in call order. -/
structure CalcInFillCall where
  plane : CuttingPlane
  InfillDistance : ℚ
  InfillRotation : ℚ
  InfillRotationPrLayer : ℚ
  DisplayDebuginFill : Bool
deriving DecidableEq

/-- How a call of `Slicer::displayInfillOld` ends. -/
inductive InfillOutcome where
  /-- `DisplayinFill` is off: the body is skipped. -/
  | skipped
  /-- The loop header evaluates `infill->size()` while `infill` is `NULL`. -/
  | nullDereference
  /-- `CalcInFill` was called and the listed vertices were sent to `glVertex3d`. -/
  | drawn (call : CalcInFillCall) (vertices : List Vector3d)
deriving DecidableEq

/-- The loop `for (i = 0; i < infill->size(); i += 2)`: two vertices at height
`z` for every complete pair of entries. -/
def infillVertices (z : ℚ) : List Vector2d → List Vector3d
  | a :: b :: rest => ⟨a.x, a.y, z⟩ :: ⟨b.x, b.y, z⟩ :: infillVertices z rest
  | _ => []

/-- The member function `Slicer::displayInfillOld`. -/
def displayInfillOld (E : External) (settings : Settings) (plane : CuttingPlane) (LayerNr : ℕ)
    (altInfillLayers : List ℤ) : InfillOutcome :=
  if settings.Display.DisplayinFill then
    let infillCuttingPlane := plane
    let infill : Option (CalcInFillCall × List Vector2d) :=
      if settings.Slicing.ShellOnly = false then
        let infillCuttingPlane :=
          match settings.Slicing.ShrinkQuality with
          | ShrinkQuality.SHRINK_FAST =>
            E.ShrinkFast (E.ClearShrink infillCuttingPlane)
              settings.Hardware.ExtrudedMaterialWidth settings.Slicing.Optimization
              settings.Display.DisplayCuttingPlane false settings.Slicing.ShellCount
          | ShrinkQuality.SHRINK_LOGICK => infillCuttingPlane
        let infillDistance :=
          if isAltInfillLayer altInfillLayers LayerNr then settings.Slicing.AltInfillDistance
          else settings.Slicing.InfillDistance
        some (⟨infillCuttingPlane, infillDistance, settings.Slicing.InfillRotation,
                settings.Slicing.InfillRotationPrLayer, settings.Display.DisplayDebuginFill⟩,
              E.CalcInFill infillCuttingPlane infillDistance settings.Slicing.InfillRotation
                settings.Slicing.InfillRotationPrLayer settings.Display.DisplayDebuginFill)
      else none
    match infill with
    | none => InfillOutcome.nullDereference
    | some (call, vertices) => InfillOutcome.drawn call (infillVertices plane.getZ vertices)
  else InfillOutcome.skipped

/-- The `makeskirt` flag of a pass, if the pass sliced a plane. -/
def DrawnPlane.makeskirt? (d : DrawnPlane) : Option Bool :=
  d.sliced?.map (fun p => p.makeShells.makeskirt)

/-- The model `m` with other values for `ShellCount`, `Skins` and the infill
settings, everything else as in `m`. -/
def withShellAndInfillSettings (m : Model) (ShellCount Skins : ℕ)
    (InfillDistance AltInfillDistance InfillRotation InfillRotationPrLayer : ℚ)
    (ShellOnly DisplayinFill DisplayDebuginFill : Bool) : Model :=
  { m with
    settings :=
      { m.settings with
        Slicing :=
          { m.settings.Slicing with
            ShellCount := ShellCount, Skins := Skins, InfillDistance := InfillDistance,
            AltInfillDistance := AltInfillDistance, InfillRotation := InfillRotation,
            InfillRotationPrLayer := InfillRotationPrLayer, ShellOnly := ShellOnly },
        Display :=
          { m.settings.Display with
            DisplayinFill := DisplayinFill, DisplayDebuginFill := DisplayDebuginFill } } }

/-- The squared distance to the origin that `ClosestToOrigin` compares,
`a.x*a.x + a.y*a.y + a.z*a.z`. -/
def sqDist (a : Vector3d) : ℚ := a.x * a.x + a.y * a.y + a.z * a.z

/-- The divisors of the divisions that `drawCuttingPlanes` evaluates before its
loop: `zStep` in `(zSize + zStep*0.5)/zStep`, and, on the path without stored
planes, `zSize` in `LayerCount*(sel_Z)/zSize`. -/
def drawDivisors (m : Model) : List ℚ :=
  if have_planes m then [zStep m] else [zStep m, zSize m]

/-! ## Sample inputs -/

/-- Sample settings: layers of thickness 1, every layer shown, infill shown,
default infill distance 2 and alternate infill distance 4. -/
def demoSettings : Settings where
  Hardware :=
    { LayerThickness := 1, ExtrudedMaterialWidth := 1 / 2,
      Volume := ⟨200, 200, 140⟩, PrintMargin := ⟨10, 10, 0⟩ }
  Slicing :=
    { ShellCount := 2, Skins := 1, SkirtHeight := 1, InfillDistance := 2,
      AltInfillDistance := 4, InfillRotation := 45, InfillRotationPrLayer := 90,
      ShellOnly := false, Optimization := 1 / 64,
      ShrinkQuality := ShrinkQuality.SHRINK_FAST }
  Display :=
    { CuttingPlaneValue := 1, DisplayAllLayers := true, DisplayinFill := true,
      DisplayDebuginFill := false, DisplayCuttingPlane := true }

/-- Sample transform: the translation `t` and no other entries. -/
def translationOnly (t : Vector3d) : Transform3D := ⟨⟨t, []⟩⟩

/-- Sample shape: a box from `lo` to `hi`, not moved. -/
def box (lo hi : Vector3d) : Shape := ⟨lo, hi, translationOnly ⟨0, 0, 0⟩⟩

/-- Sample model: one box of height 10 standing on `z = 0`, nothing sliced
yet. -/
def demoModel : Model where
  settings := demoSettings
  objtree := ⟨[⟨[box ⟨0, 0, 0⟩ ⟨20, 20, 10⟩], translationOnly ⟨0, 0, 0⟩⟩], translationOnly ⟨0, 0, 0⟩⟩
  cuttingplanes := []
  gcode := []
  Min := ⟨0, 0, 0⟩
  Max := ⟨20, 20, 10⟩
  Center := ⟨10, 10, 5⟩

/-- The sample model with the cutting-plane slider at `v`. -/
def demoModelAt (v : ℚ) : Model :=
  { demoModel with
    settings := { demoSettings with Display := { demoSettings.Display with CuttingPlaneValue := v } } }

/-- The sample model with its box below the origin, from `(-10, -10, -10)` to
`(-5, -5, -5)`. -/
def demoModelSunken : Model :=
  { demoModel with
    objtree :=
      ⟨[⟨[box ⟨-10, -10, -10⟩ ⟨-5, -5, -5⟩], translationOnly ⟨0, 0, 0⟩⟩], translationOnly ⟨0, 0, 0⟩⟩ }

/-- The sample model after slicing: one stored plane. -/
def demoModelSliced : Model :=
  { demoModel with cuttingplanes := [(CuttingPlane.new 0 1).setZ (1 / 2)] }

/-- An alternate infill rotation for the sample snapshot, `90` against the
default `InfillRotation = 45`.  The program's `Settings` has no field for it. -/
def demoAltInfillRotation : ℚ := 90

/-- Sample external functions: the configured extrusion width, the alternate
layers 3 and 7, transforms that only translate, and shape operations that
change nothing. -/
def demoExternal : External where
  GetExtrudedMaterialWidth := fun h _ => h.ExtrudedMaterialWidth
  GetAltInfillLayers := fun _ _ => [3, 7]
  GetSTLTransformationMatrix := fun t i j =>
    match t.Objects.get? i with
    | some o =>
      match o.shapes.get? j with
      | some s => s.transform3D.transform
      | none => ⟨⟨0, 0, 0⟩, []⟩
    | none => ⟨⟨0, 0, 0⟩, []⟩
  mulPoint := fun M v => v.add M.translation
  newObject := fun t => { t with Objects := t.Objects ++ [⟨[], translationOnly ⟨0, 0, 0⟩⟩] }
  addShape := fun t parent shape _ =>
    { t with Objects := modifyAt (fun o => { o with shapes := o.shapes ++ [shape] }) t.Objects parent }
  load := fun _ => (box ⟨0, 0, 0⟩ ⟨10, 10, 10⟩, 0)
  load_settings := fun s _ => s
  DeleteSelected := fun t _ => { t with Objects := [] }
  Scale := fun s k => { s with Min := ⟨s.Min.x * k, s.Min.y * k, s.Min.z * k⟩,
                               Max := ⟨s.Max.x * k, s.Max.y * k, s.Max.z * k⟩ }
  Rotate := fun s _ _ => s
  OptimizeRotation := fun s => s
  ClearShrink := fun p => p
  ShrinkFast := fun p _ _ _ _ _ => p
  CalcInFill := fun _ _ _ _ _ => [⟨0, 0⟩, ⟨1, 1⟩]

/-- The sample model with an empty object tree. -/
def demoModelEmpty : Model :=
  { demoModel with objtree := ⟨[], translationOnly ⟨0, 0, 0⟩⟩ }

/-- A sample shape wider than the printable area: 300 by 300 by 10. -/
def demoShapeOversize : Shape := box ⟨0, 0, 0⟩ ⟨300, 300, 10⟩

/-- The sample model with its only shape, 10 by 10 by 10, moved to
`(-11, -11, 0)`, so that it covers `[-11, -1]` in X and in Y. -/
def demoModelOffBed : Model :=
  { demoModel with
    objtree :=
      ⟨[⟨[⟨⟨0, 0, 0⟩, ⟨10, 10, 10⟩, translationOnly ⟨-11, -11, 0⟩⟩], translationOnly ⟨0, 0, 0⟩⟩],
        translationOnly ⟨0, 0, 0⟩⟩ }

/-- The sample model with two shapes at non-negative positions: one covering
`[0, 10] x [0, 10]`, and one of 6 by 1 moved to `(0, 10, 0)`, covering
`[0, 6] x [10, 11]`. -/
def demoModelTwoShapes : Model :=
  { demoModel with
    objtree :=
      ⟨[⟨[⟨⟨0, 0, 0⟩, ⟨10, 10, 10⟩, translationOnly ⟨0, 0, 0⟩⟩,
          ⟨⟨0, 0, 0⟩, ⟨6, 1, 10⟩, translationOnly ⟨0, 10, 0⟩⟩], translationOnly ⟨0, 0, 0⟩⟩],
        translationOnly ⟨0, 0, 0⟩⟩ }

/-- A sample shape to place: 10 by 10 by 10. -/
def demoShapeSmall : Shape := box ⟨0, 0, 0⟩ ⟨10, 10, 10⟩

/-! ## The loop of `Model::drawCuttingPlanes` without stored planes -/

/-- Without stored planes, a loop that has enough passes left slices the planes
`LayerNr, LayerNr + 1, .., LayerCount - 1` at the heights
`z, z + zStep, ..`. -/
theorem drawLoop_uncached (E : External) (m : Model) (alt : List ℤ) (LC : ℕ)
    (hm : have_planes m = false) :
    ∀ (fuel LayerNr : ℕ) (z : ℚ), LC - LayerNr ≤ fuel →
      drawLoop E m alt LC fuel LayerNr z =
        (List.range (LC - LayerNr)).map (fun k =>
          DrawnPlane.sliced (slicePlane E m alt (LayerNr + k) (z + (k : ℚ) * zStep m))) := by
  intro fuel
  induction fuel with
  | zero =>
    intro LayerNr z h
    have h0 : LC - LayerNr = 0 := by omega
    simp [drawLoop, h0]
  | succ fuel ih =>
    intro LayerNr z h
    by_cases hlt : LayerNr < LC
    · have hsplit : LC - LayerNr = (LC - (LayerNr + 1)) + 1 := by omega
      rw [drawLoop, if_pos hlt, hm, hsplit, List.range_succ_eq_map]
      simp only [Bool.false_eq_true, if_false, List.map_cons, List.map_map]
      rw [ih (LayerNr + 1) (z + zStep m) (by omega)]
      simp only [Nat.cast_zero, zero_mul, add_zero, List.cons.injEq, true_and]
      apply List.map_congr_left
      intro k _
      simp only [Function.comp, Nat.cast_succ]
      congr 2
      · omega
      · ring
    · have h0 : LC - LayerNr = 0 := by omega
      simp [drawLoop, hlt, h0]

/-- Without stored planes, `drawCuttingPlanes` slices one plane for every layer
number from `firstLayerNr` up to `LayerCount - 1`. -/
theorem drawCuttingPlanes_uncached (E : External) (m : Model) (hm : have_planes m = false) :
    drawCuttingPlanes E m =
      (List.range (LayerCount m - firstLayerNr m)).map (fun k =>
        DrawnPlane.sliced
          (slicePlane E m (E.GetAltInfillLayers m.settings.Slicing (LayerCount m))
            (firstLayerNr m + k) (firstZ m + (k : ℚ) * zStep m))) := by
  unfold drawCuttingPlanes
  exact drawLoop_uncached E m _ _ hm _ _ _ le_rfl

/-- More passes than `LayerCount - LayerNr` change nothing: without stored
planes the loop always ends through its own test. -/
theorem drawLoop_fuel_irrelevant (E : External) (m : Model) (alt : List ℤ) (LC : ℕ)
    (hm : have_planes m = false) (fuel fuel' LayerNr : ℕ) (z : ℚ)
    (h : LC - LayerNr ≤ fuel) (h' : LC - LayerNr ≤ fuel') :
    drawLoop E m alt LC fuel LayerNr z = drawLoop E m alt LC fuel' LayerNr z := by
  rw [drawLoop_uncached E m alt LC hm fuel LayerNr z h,
    drawLoop_uncached E m alt LC hm fuel' LayerNr z h']

/-! ## Machine integers: facts -/

/-- A value in the range of `uint` converts to itself. -/
theorem toUint_natCast (n : ℕ) (h : n < UINT_RANGE) : toUint (n : ℤ) = n := by
  unfold toUint
  rw [Int.emod_eq_of_lt (Int.natCast_nonneg n) (by exact_mod_cast h)]
  exact Int.toNat_natCast n

/-- Every converted value is in the range of `uint`. -/
theorem toUint_lt (i : ℤ) : toUint i < UINT_RANGE := by
  unfold toUint
  have hpos : (0 : ℤ) < (UINT_RANGE : ℤ) := by decide
  have h1 := Int.emod_lt_of_pos i hpos
  have h0 := Int.emod_nonneg i (ne_of_gt hpos)
  omega

/-- A non-negative integer in the range of `uint` converts to itself. -/
theorem toUint_of_nonneg (i : ℤ) (h0 : 0 ≤ i) (h : i < (UINT_RANGE : ℤ)) :
    (toUint i : ℤ) = i := by
  unfold toUint
  rw [Int.emod_eq_of_lt h0 h]
  exact Int.toNat_of_nonneg h0

/-! ## The passes of `Model::drawCuttingPlanes` without stored planes -/

/-- An empty `cuttingplanes` list means `have_planes` is false. -/
theorem have_planes_of_nil (m : Model) (hm : m.cuttingplanes = []) : have_planes m = false := by
  simp [have_planes, hm]

/-- Without stored planes, pass `k` exists exactly for
`k < LayerCount - firstLayerNr`, and it slices the plane with number
`firstLayerNr + k` at height `firstZ + k * zStep`. -/
theorem drawCuttingPlanes_get? (E : External) (m : Model) (hm : m.cuttingplanes = []) (k : ℕ) :
    (drawCuttingPlanes E m).get? k =
      if k < LayerCount m - firstLayerNr m then
        some (DrawnPlane.sliced
          (slicePlane E m (E.GetAltInfillLayers m.settings.Slicing (LayerCount m))
            (firstLayerNr m + k) (firstZ m + (k : ℚ) * zStep m)))
      else none := by
  rw [drawCuttingPlanes_uncached E m (have_planes_of_nil m hm)]
  by_cases hk : k < LayerCount m - firstLayerNr m
  · simp [hk, List.getElem?_range]
  · simp [hk]
    omega

/-- Without stored planes, the number of passes is `LayerCount - firstLayerNr`. -/
theorem drawCuttingPlanes_length (E : External) (m : Model) (hm : m.cuttingplanes = []) :
    (drawCuttingPlanes E m).length = LayerCount m - firstLayerNr m := by
  rw [drawCuttingPlanes_uncached E m (have_planes_of_nil m hm)]
  simp

/-- The temporary plane of a pass carries the layer number and the height the
loop is at. -/
theorem slicePlane_plane (E : External) (m : Model) (alt : List ℤ) (n : ℕ) (z : ℚ) :
    (slicePlane E m alt n z).plane.LayerNo = n ∧ (slicePlane E m alt n z).plane.getZ = z := by
  simp [slicePlane, CuttingPlane.new, CuttingPlane.setZ, CuttingPlane.getZ]

/-- With `DisplayinFill` on, the local `infilldist` of the pass is the alternate
distance on the layers of the alternate-infill list and the default distance
on the others. -/
theorem slicePlane_infilldist (E : External) (m : Model) (alt : List ℤ) (n : ℕ) (z : ℚ)
    (hfill : m.settings.Display.DisplayinFill = true) :
    (slicePlane E m alt n z).infilldist =
      some (if isAltInfillLayer alt n then
          E.GetExtrudedMaterialWidth m.settings.Hardware m.settings.Hardware.LayerThickness *
            (1 + m.settings.Slicing.AltInfillDistance)
        else
          E.GetExtrudedMaterialWidth m.settings.Hardware m.settings.Hardware.LayerThickness *
            (1 + m.settings.Slicing.InfillDistance)) := by
  simp [slicePlane, hfill, CuttingPlane.new, CuttingPlane.setZ]

/-- With `DisplayinFill` on, the pass calls `CalcInfill` with the default
distance `matwidth * (1 + InfillDistance)`, the full distance `matwidth` and the
rotation settings. -/
theorem slicePlane_calcInfill (E : External) (m : Model) (alt : List ℤ) (n : ℕ) (z : ℚ)
    (hfill : m.settings.Display.DisplayinFill = true) :
    (slicePlane E m alt n z).calcInfill =
      some ⟨E.GetExtrudedMaterialWidth m.settings.Hardware m.settings.Hardware.LayerThickness *
              (1 + m.settings.Slicing.InfillDistance),
            E.GetExtrudedMaterialWidth m.settings.Hardware m.settings.Hardware.LayerThickness,
            m.settings.Slicing.InfillRotation, m.settings.Slicing.InfillRotationPrLayer,
            m.settings.Slicing.ShellOnly, m.settings.Display.DisplayDebuginFill⟩ := by
  simp [slicePlane, hfill, CuttingPlane.new, CuttingPlane.setZ]

/-- With `DisplayinFill` off, the pass does not call `CalcInfill`. -/
theorem slicePlane_calcInfill_off (E : External) (m : Model) (alt : List ℤ) (n : ℕ) (z : ℚ)
    (hfill : m.settings.Display.DisplayinFill = false) :
    (slicePlane E m alt n z).calcInfill = none := by
  simp [slicePlane, hfill]

/-- With the whole height selected and a model of non-zero height,
`sel_Layer` is the first value of `LayerCount`. -/
theorem sel_Layer_full_height (m : Model) (hm : m.cuttingplanes = [])
    (hv : m.settings.Display.CuttingPlaneValue = 1) (hz : zSize m ≠ 0) :
    sel_Layer m = LayerCount₀ m := by
  have hL : LayerCount₀ m < UINT_RANGE := toUint_lt _
  have hq : (LayerCount₀ m : ℚ) * sel_Z m / zSize m = ((LayerCount₀ m : ℤ) : ℚ) := by
    rw [sel_Z, hv, one_mul, mul_div_assoc, div_self hz, mul_one]
    simp
  rw [sel_Layer, have_planes_of_nil m hm]
  simp only [Bool.false_eq_true, if_false]
  rw [uintCeil, hq, Int.ceil_intCast]
  exact toUint_natCast _ hL

/-- The sample model has no stored planes, shows every layer, and ends up with
`LayerCount = 12`. -/
theorem demoModel_LayerCount : LayerCount demoModel = 12 := by
  have hz : zSize demoModel = 10 := by norm_num [zSize, demoModel]
  have hs : zStep demoModel = 1 := by simp [zStep, demoModel, demoSettings]
  have hc : ⌈((10 : ℚ) + 1 * (1 / 2)) / 1⌉ = 11 := by norm_num [Int.ceil_eq_iff]
  have h0 : LayerCount₀ demoModel = 11 := by
    rw [LayerCount₀, hz, hs, uintCeil, hc]
    decide
  have hsel : sel_Layer demoModel = 11 := by
    rw [sel_Layer_full_height demoModel rfl rfl (by rw [hz]; norm_num), h0]
  rw [LayerCount, hsel]
  decide

/-- The sample model starts its loop at layer 0 and height `1 / 2`. -/
theorem demoModel_first : firstLayerNr demoModel = 0 ∧ firstZ demoModel = 1 / 2 := by
  constructor
  · simp [firstLayerNr, demoModel, demoSettings]
  · norm_num [firstZ, zStep, demoModel, demoSettings]

/-- Pass `k` of the sample run, for `k < 12`. -/
theorem demoModel_pass (k : ℕ) (hk : k < 12) :
    (drawCuttingPlanes demoExternal demoModel).get? k =
      some (DrawnPlane.sliced (slicePlane demoExternal demoModel [3, 7] k (1 / 2 + (k : ℚ) * 1))) := by
  rw [drawCuttingPlanes_get? demoExternal demoModel rfl k, demoModel_LayerCount,
    demoModel_first.1, demoModel_first.2]
  have hs : zStep demoModel = 1 := by simp [zStep, demoModel, demoSettings]
  simp [hk, hs, demoExternal]

/-! ## Infill distance handed to `CalcInfill` -/

/-- C1 (the code departs from the claim): without stored planes and with
`DisplayinFill` on, every pass hands `CalcInfill` the default distance,
extrusion width times `1 + InfillDistance`, whatever its layer number.  The
local `infilldist` does hold the alternate distance, extrusion width times
`1 + AltInfillDistance`, on the layers of the alternate-infill list, but it is
not the value passed. -/
theorem calcInfill_distance_ignores_alt_layers (E : External) (m : Model)
    (hm : m.cuttingplanes = []) (hfill : m.settings.Display.DisplayinFill = true)
    (k : ℕ) (d : DrawnPlane) (hd : (drawCuttingPlanes E m).get? k = some d) :
    ∃ p c, d = DrawnPlane.sliced p ∧ p.plane.LayerNo = firstLayerNr m + k ∧
      p.calcInfill = some c ∧
      c.InfillDistance =
        E.GetExtrudedMaterialWidth m.settings.Hardware m.settings.Hardware.LayerThickness *
          (1 + m.settings.Slicing.InfillDistance) ∧
      p.infilldist =
        some (if isAltInfillLayer (E.GetAltInfillLayers m.settings.Slicing (LayerCount m))
              p.plane.LayerNo then
            E.GetExtrudedMaterialWidth m.settings.Hardware m.settings.Hardware.LayerThickness *
              (1 + m.settings.Slicing.AltInfillDistance)
          else
            E.GetExtrudedMaterialWidth m.settings.Hardware m.settings.Hardware.LayerThickness *
              (1 + m.settings.Slicing.InfillDistance)) := by
  rw [drawCuttingPlanes_get? E m hm k] at hd
  split at hd
  · simp only [Option.some.injEq] at hd
    refine ⟨_, _, hd.symm, (slicePlane_plane E m _ _ _).1,
      slicePlane_calcInfill E m _ _ _ hfill, rfl, ?_⟩
    rw [(slicePlane_plane E m _ _ _).1]
    exact slicePlane_infilldist E m _ _ _ hfill
  · exact absurd hd (by simp)

/-- C1 at the sample model: layer 3 is in the alternate-infill list `[3, 7]`,
the local `infilldist` holds the alternate distance `5 / 2`, and `CalcInfill`
receives the default distance `3 / 2`. -/
theorem calcInfill_distance_ignores_alt_layers_witness :
    demoModel.cuttingplanes = [] ∧ demoModel.settings.Display.DisplayinFill = true ∧
    isAltInfillLayer
      (demoExternal.GetAltInfillLayers demoModel.settings.Slicing (LayerCount demoModel)) 3 = true ∧
    ∃ p c, (drawCuttingPlanes demoExternal demoModel).get? 3 = some (DrawnPlane.sliced p) ∧
      p.plane.LayerNo = 3 ∧ p.calcInfill = some c ∧ c.InfillDistance = 3 / 2 ∧
      p.infilldist = some (5 / 2) := by
  have halt : isAltInfillLayer
      (demoExternal.GetAltInfillLayers demoModel.settings.Slicing (LayerCount demoModel)) 3 =
      true := by decide
  refine ⟨rfl, rfl, halt, ?_⟩
  obtain ⟨p, c, h1, h2, h3, h4, h5⟩ :=
    calcInfill_distance_ignores_alt_layers demoExternal demoModel rfl rfl 3 _
      (demoModel_pass 3 (by norm_num))
  have hno : p.plane.LayerNo = 3 := by rw [h2, demoModel_first.1]
  refine ⟨p, c, ?_, hno, h3, ?_, ?_⟩
  · rw [demoModel_pass 3 (by norm_num), h1]
  · rw [h4]
    norm_num [demoExternal, demoModel, demoSettings]
  · rw [h5, hno, halt]
    norm_num [demoExternal, demoModel, demoSettings]

/-! ## Number of planes, layer numbers and heights -/

/-- C2 (the code departs from the claim): without stored planes, with
`DisplayAllLayers` on, `CuttingPlaneValue = 1`, `LayerThickness > 0` and
`Max.z > Min.z`, the loop processes
`ceil((Max.z - Min.z + LayerThickness/2) / LayerThickness) + 1` planes, one more
than the layer count, as long as that number fits a `uint`. -/
theorem full_height_processes_one_plane_more (E : External) (m : Model)
    (hm : m.cuttingplanes = []) (hall : m.settings.Display.DisplayAllLayers = true)
    (hv : m.settings.Display.CuttingPlaneValue = 1)
    (ht : 0 < m.settings.Hardware.LayerThickness) (hz : m.Min.z < m.Max.z)
    (hr : ⌈(m.Max.z - m.Min.z + m.settings.Hardware.LayerThickness / 2) /
        m.settings.Hardware.LayerThickness⌉ + 1 < (UINT_RANGE : ℤ)) :
    ((drawCuttingPlanes E m).length : ℤ) =
      ⌈(m.Max.z - m.Min.z + m.settings.Hardware.LayerThickness / 2) /
        m.settings.Hardware.LayerThickness⌉ + 1 := by
  have hzs : zSize m ≠ 0 := by
    unfold zSize
    linarith
  have hx : (zSize m + zStep m * (1 / 2)) / zStep m =
      (m.Max.z - m.Min.z + m.settings.Hardware.LayerThickness / 2) /
        m.settings.Hardware.LayerThickness := by
    simp only [zSize, zStep]
    ring
  have hpos : 0 < (m.Max.z - m.Min.z + m.settings.Hardware.LayerThickness / 2) /
      m.settings.Hardware.LayerThickness := by
    apply div_pos _ ht
    linarith
  have hc0 := Int.ceil_pos.mpr hpos
  have hL0 : (LayerCount₀ m : ℤ) =
      ⌈(m.Max.z - m.Min.z + m.settings.Hardware.LayerThickness / 2) /
        m.settings.Hardware.LayerThickness⌉ := by
    rw [LayerCount₀, uintCeil, hx]
    exact toUint_of_nonneg _ (le_of_lt hc0) (by linarith)
  have hfirst : firstLayerNr m = 0 := by simp [firstLayerNr, hall]
  rw [drawCuttingPlanes_length E m hm, hfirst, Nat.sub_zero, LayerCount,
    sel_Layer_full_height m hm hv hzs, ← hL0]
  have hlt : LayerCount₀ m + 1 < UINT_RANGE := by
    have : ((LayerCount₀ m : ℤ) + 1) < (UINT_RANGE : ℤ) := by rw [hL0]; exact hr
    exact_mod_cast this
  rw [Nat.mod_eq_of_lt hlt]
  push_cast
  ring

/-- C2 at the sample model (`Min.z = 0`, `Max.z = 10`, `LayerThickness = 1`):
the layer count is `ceil(10.5) = 11` and the loop processes 12 planes. -/
theorem full_height_processes_one_plane_more_witness :
    demoModel.cuttingplanes = [] ∧ demoModel.settings.Display.DisplayAllLayers = true ∧
    demoModel.settings.Display.CuttingPlaneValue = 1 ∧
    0 < demoModel.settings.Hardware.LayerThickness ∧ demoModel.Min.z < demoModel.Max.z ∧
    ⌈(demoModel.Max.z - demoModel.Min.z + demoModel.settings.Hardware.LayerThickness / 2) /
        demoModel.settings.Hardware.LayerThickness⌉ = 11 ∧
    ((drawCuttingPlanes demoExternal demoModel).length : ℤ) = 12 := by
  have hc : ⌈(demoModel.Max.z - demoModel.Min.z + demoModel.settings.Hardware.LayerThickness / 2) /
        demoModel.settings.Hardware.LayerThickness⌉ = 11 := by
    norm_num [demoModel, demoSettings, Int.ceil_eq_iff]
  have ht : 0 < demoModel.settings.Hardware.LayerThickness := by
    norm_num [demoModel, demoSettings]
  have hz : demoModel.Min.z < demoModel.Max.z := by norm_num [demoModel]
  refine ⟨rfl, rfl, rfl, ht, hz, hc, ?_⟩
  rw [full_height_processes_one_plane_more demoExternal demoModel rfl rfl rfl ht hz
    (by rw [hc]; decide), hc]
  norm_num

/-- In exact arithmetic only: without stored planes and with `DisplayAllLayers`
on, the `k`-th plane processed (counted from 0) has layer number `k` and
`Z = Min.z + LayerThickness/2 + k * LayerThickness`.  The program reaches `Z` by
`k` rounded additions `z += zStep`, so its `double` need not equal this closed
form; the layer number does not depend on rounding. -/
theorem kth_plane_number_and_height (E : External) (m : Model)
    (hm : m.cuttingplanes = []) (hall : m.settings.Display.DisplayAllLayers = true)
    (k : ℕ) (d : DrawnPlane) (hd : (drawCuttingPlanes E m).get? k = some d) :
    ∃ p, d = DrawnPlane.sliced p ∧ p.plane.LayerNo = k ∧
      p.plane.getZ =
        m.Min.z + m.settings.Hardware.LayerThickness / 2 +
          (k : ℚ) * m.settings.Hardware.LayerThickness := by
  rw [drawCuttingPlanes_get? E m hm k] at hd
  split at hd
  · simp only [Option.some.injEq] at hd
    refine ⟨_, hd.symm, ?_, ?_⟩
    · rw [(slicePlane_plane E m _ _ _).1]
      simp [firstLayerNr, hall]
    · rw [(slicePlane_plane E m _ _ _).2]
      simp only [firstZ, hall, if_true, zStep]
      ring
  · exact absurd hd (by simp)

/-- The closed form at the sample model, whose values are exact in `double`:
the plane of pass 3 has layer number 3 and `Z = 7 / 2`. -/
theorem kth_plane_number_and_height_witness :
    demoModel.cuttingplanes = [] ∧ demoModel.settings.Display.DisplayAllLayers = true ∧
    ∃ p, (drawCuttingPlanes demoExternal demoModel).get? 3 = some (DrawnPlane.sliced p) ∧
      p.plane.LayerNo = 3 ∧ p.plane.getZ = 7 / 2 := by
  refine ⟨rfl, rfl, ?_⟩
  obtain ⟨p, h1, h2, h3⟩ :=
    kth_plane_number_and_height demoExternal demoModel rfl rfl 3 _
      (demoModel_pass 3 (by norm_num))
  refine ⟨p, ?_, h2, ?_⟩
  · rw [demoModel_pass 3 (by norm_num), h1]
  · rw [h3]
    norm_num [demoModel, demoSettings]

/-- The sample model with the slider at `7 / 8` ends up with `LayerCount = 11`
and starts at layer 0 and height `1 / 2`. -/
theorem demoModelAt_seven_eighths :
    LayerCount (demoModelAt (7 / 8)) = 11 ∧ firstLayerNr (demoModelAt (7 / 8)) = 0 ∧
      firstZ (demoModelAt (7 / 8)) = 1 / 2 ∧ zStep (demoModelAt (7 / 8)) = 1 := by
  have hz : zSize (demoModelAt (7 / 8)) = 10 := by norm_num [zSize, demoModelAt, demoModel]
  have hs : zStep (demoModelAt (7 / 8)) = 1 := by
    simp [zStep, demoModelAt, demoModel, demoSettings]
  have hc : ⌈((10 : ℚ) + 1 * (1 / 2)) / 1⌉ = 11 := by norm_num [Int.ceil_eq_iff]
  have h0 : LayerCount₀ (demoModelAt (7 / 8)) = 11 := by
    rw [LayerCount₀, hz, hs, uintCeil, hc]
    decide
  have hc' : ⌈((11 : ℕ) : ℚ) * (7 / 8 * 10) / 10⌉ = 10 := by norm_num [Int.ceil_eq_iff]
  have hsel : sel_Layer (demoModelAt (7 / 8)) = 10 := by
    have hp : have_planes (demoModelAt (7 / 8)) = false := by decide
    rw [sel_Layer, hp]
    simp only [Bool.false_eq_true, if_false]
    rw [h0, sel_Z, hz]
    simp only [demoModelAt]
    rw [uintCeil, hc']
    decide
  refine ⟨?_, ?_, ?_, hs⟩
  · rw [LayerCount, hsel]
    decide
  · simp [firstLayerNr, demoModelAt, demoSettings]
  · norm_num [firstZ, zStep, demoModelAt, demoModel, demoSettings]

/-- In exact arithmetic only: without stored planes, with `DisplayAllLayers` on
and `LayerThickness > 0`, every plane the loop processes whose layer number is
below the layer count `ceil((Max.z - Min.z + LayerThickness/2) / LayerThickness)`
has `Z < Max.z + LayerThickness`.  The rounded `Z` of the program can reach
`Max.z + LayerThickness`, so this bound is not a statement about the program. -/
theorem plane_height_below_Max_plus_thickness (E : External) (m : Model)
    (hm : m.cuttingplanes = []) (hall : m.settings.Display.DisplayAllLayers = true)
    (ht : 0 < m.settings.Hardware.LayerThickness)
    (k : ℕ) (d : DrawnPlane) (hd : (drawCuttingPlanes E m).get? k = some d) :
    ∃ p, d = DrawnPlane.sliced p ∧
      ((p.plane.LayerNo : ℤ) <
          ⌈(m.Max.z - m.Min.z + m.settings.Hardware.LayerThickness / 2) /
            m.settings.Hardware.LayerThickness⌉ →
        p.plane.getZ < m.Max.z + m.settings.Hardware.LayerThickness) := by
  rw [drawCuttingPlanes_get? E m hm k] at hd
  split at hd
  · simp only [Option.some.injEq] at hd
    refine ⟨_, hd.symm, ?_⟩
    rw [(slicePlane_plane E m _ _ _).1, (slicePlane_plane E m _ _ _).2]
    intro hk
    have hk' : ((firstLayerNr m + k : ℕ) : ℚ) <
        (m.Max.z - m.Min.z + m.settings.Hardware.LayerThickness / 2) /
          m.settings.Hardware.LayerThickness := by
      have := Int.lt_ceil.mp hk
      exact_mod_cast this
    rw [lt_div_iff₀ ht] at hk'
    have hf : firstLayerNr m = 0 := by simp [firstLayerNr, hall]
    rw [hf] at hk'
    simp only [zero_add] at hk'
    simp only [firstZ, hall, if_true, zStep]
    linarith
  · exact absurd hd (by simp)

/-- The exact bound at the sample model with the slider at `7 / 8`, whose values
are exact in `double`: the plane of pass 10 has layer number `10 < 11` and
`Z = 21 / 2 < 10 + 1`. -/
theorem plane_height_below_Max_plus_thickness_witness :
    (demoModelAt (7 / 8)).cuttingplanes = [] ∧
    (demoModelAt (7 / 8)).settings.Display.DisplayAllLayers = true ∧
    0 < (demoModelAt (7 / 8)).settings.Hardware.LayerThickness ∧
    ∃ p, (drawCuttingPlanes demoExternal (demoModelAt (7 / 8))).get? 10 =
        some (DrawnPlane.sliced p) ∧
      p.plane.LayerNo = 10 ∧ p.plane.getZ = 21 / 2 ∧ p.plane.getZ < 10 + 1 := by
  have ht : 0 < (demoModelAt (7 / 8)).settings.Hardware.LayerThickness := by
    norm_num [demoModelAt, demoSettings]
  have hpass := drawCuttingPlanes_get? demoExternal (demoModelAt (7 / 8)) rfl 10
  rw [demoModelAt_seven_eighths.1, demoModelAt_seven_eighths.2.1,
    demoModelAt_seven_eighths.2.2.1, demoModelAt_seven_eighths.2.2.2] at hpass
  simp only [Nat.sub_zero, if_true, show (10 : ℕ) < 11 by norm_num] at hpass
  obtain ⟨p, h1, h2⟩ :=
    plane_height_below_Max_plus_thickness demoExternal (demoModelAt (7 / 8)) rfl rfl ht 10 _ hpass
  have hp := DrawnPlane.sliced.inj h1
  have hno : p.plane.LayerNo = 10 := by
    rw [← hp, (slicePlane_plane _ _ _ _ _).1]
  have hZ : p.plane.getZ = 21 / 2 := by
    rw [← hp, (slicePlane_plane _ _ _ _ _).2]
    norm_num
  refine ⟨rfl, rfl, ht, p, ?_, hno, hZ, ?_⟩
  · rw [hpass, h1]
  · have hc : ⌈((demoModelAt (7 / 8)).Max.z - (demoModelAt (7 / 8)).Min.z +
          (demoModelAt (7 / 8)).settings.Hardware.LayerThickness / 2) /
        (demoModelAt (7 / 8)).settings.Hardware.LayerThickness⌉ = 11 := by
      norm_num [demoModelAt, demoModel, demoSettings, Int.ceil_eq_iff]
    have := h2 (by rw [hno, hc]; norm_num)
    norm_num [demoModelAt, demoModel, demoSettings] at this
    linarith

/-! ## Layer thickness is not validated -/

/-- C10: without stored planes, the `makeskirt` flag passed to `MakeShells` for a
plane is true exactly when the plane's `Z` is at most `Slicing.SkirtHeight`; and
the flags of a run are the same for any other values of `ShellCount`, `Skins`
and the infill settings, and for any other alternate-infill layers or
extrusion width. -/
theorem makeskirt_iff_below_SkirtHeight (E : External) (m : Model) (hm : m.cuttingplanes = []) :
    (∀ k d, (drawCuttingPlanes E m).get? k = some d →
        ∃ p, d = DrawnPlane.sliced p ∧
          (p.makeShells.makeskirt = true ↔ p.plane.getZ ≤ m.settings.Slicing.SkirtHeight)) ∧
    (∀ (E' : External) (ShellCount Skins : ℕ)
        (InfillDistance AltInfillDistance InfillRotation InfillRotationPrLayer : ℚ)
        (ShellOnly DisplayinFill DisplayDebuginFill : Bool),
      (drawCuttingPlanes E'
          (withShellAndInfillSettings m ShellCount Skins InfillDistance AltInfillDistance
            InfillRotation InfillRotationPrLayer ShellOnly DisplayinFill
            DisplayDebuginFill)).map DrawnPlane.makeskirt? =
        (drawCuttingPlanes E m).map DrawnPlane.makeskirt?) := by
  constructor
  · intro k d hd
    rw [drawCuttingPlanes_get? E m hm k] at hd
    split at hd
    · simp only [Option.some.injEq] at hd
      refine ⟨_, hd.symm, ?_⟩
      simp [slicePlane, CuttingPlane.new, CuttingPlane.setZ, CuttingPlane.getZ]
    · exact absurd hd (by simp)
  · intro E' sc sk d1 d2 r1 r2 so df dd
    have hm' : (withShellAndInfillSettings m sc sk d1 d2 r1 r2 so df dd).cuttingplanes = [] := hm
    rw [drawCuttingPlanes_uncached E m (have_planes_of_nil m hm),
      drawCuttingPlanes_uncached E' (withShellAndInfillSettings m sc sk d1 d2 r1 r2 so df dd)
        (have_planes_of_nil _ hm')]
    simp only [List.map_map]
    rfl

/-- C10 at the sample model (`SkirtHeight = 1`): the plane of pass 0, at
`Z = 1 / 2`, gets `makeskirt = true`; the plane of pass 1, at `Z = 3 / 2`, gets
`makeskirt = false`. -/
theorem makeskirt_iff_below_SkirtHeight_witness :
    demoModel.cuttingplanes = [] ∧
    (∃ p, (drawCuttingPlanes demoExternal demoModel).get? 0 = some (DrawnPlane.sliced p) ∧
      p.plane.getZ = 1 / 2 ∧ p.makeShells.makeskirt = true) ∧
    (∃ p, (drawCuttingPlanes demoExternal demoModel).get? 1 = some (DrawnPlane.sliced p) ∧
      p.plane.getZ = 3 / 2 ∧ p.makeShells.makeskirt = false) := by
  have h := (makeskirt_iff_below_SkirtHeight demoExternal demoModel rfl).1
  refine ⟨rfl, ?_, ?_⟩
  · obtain ⟨p, h1, h2⟩ := h 0 _ (demoModel_pass 0 (by norm_num))
    have hp := DrawnPlane.sliced.inj h1
    have hZ : p.plane.getZ = 1 / 2 := by
      rw [← hp, (slicePlane_plane _ _ _ _ _).2]
      norm_num
    refine ⟨p, by rw [demoModel_pass 0 (by norm_num), h1], hZ, h2.mpr ?_⟩
    rw [hZ]
    norm_num [demoModel, demoSettings]
  · obtain ⟨p, h1, h2⟩ := h 1 _ (demoModel_pass 1 (by norm_num))
    have hp := DrawnPlane.sliced.inj h1
    have hZ : p.plane.getZ = 3 / 2 := by
      rw [← hp, (slicePlane_plane _ _ _ _ _).2]
      norm_num
    refine ⟨p, by rw [demoModel_pass 1 (by norm_num), h1], hZ, ?_⟩
    have hnot : ¬ p.makeShells.makeskirt = true := by
      intro hc
      have := h2.mp hc
      rw [hZ] at this
      norm_num [demoModel, demoSettings] at this
    simpa using hnot

/-! ## `Model::CalcBoundingBoxAndCenter` -/

/-- The constant `G_MINDOUBLE` is positive. -/
theorem G_MINDOUBLE_pos : 0 < G_MINDOUBLE := by
  unfold G_MINDOUBLE
  positivity

/-- The constant `G_MAXDOUBLE` is positive. -/
theorem G_MAXDOUBLE_pos : 0 < G_MAXDOUBLE := by
  unfold G_MAXDOUBLE
  norm_num

/-- C5 (the code departs from the claim): the sample model holds one shape,
whose transformed corners are `(-10, -10, -10)` and `(-5, -5, -5)`.  After
`CalcBoundingBoxAndCenter` the stored `Min` is `(-10, -10, -10)`, and every
component of the stored `Max` is the positive start value `G_MINDOUBLE`, not
`-5`, the largest value over the shapes. -/
theorem CalcBoundingBoxAndCenter_sunken_shape :
    transformedBounds demoExternal demoModelSunken.objtree =
      [(⟨-10, -10, -10⟩, ⟨-5, -5, -5⟩)] ∧
    (CalcBoundingBoxAndCenter demoExternal demoModelSunken).Min = ⟨-10, -10, -10⟩ ∧
    (CalcBoundingBoxAndCenter demoExternal demoModelSunken).Max =
      ⟨G_MINDOUBLE, G_MINDOUBLE, G_MINDOUBLE⟩ ∧
    (-5 : ℚ) < G_MINDOUBLE := by
  have hpos := G_MINDOUBLE_pos
  have hmax := G_MAXDOUBLE_pos
  have hb : transformedBounds demoExternal demoModelSunken.objtree =
      [(⟨-10, -10, -10⟩, ⟨-5, -5, -5⟩)] := by
    simp [transformedBounds, indexedShapes, demoModelSunken, demoExternal, box, translationOnly,
      Vector3d.add, List.enum, List.enumFrom]
  have hMIN : MIN (-10) G_MAXDOUBLE = -10 := by
    unfold MIN
    rw [if_pos (by linarith)]
  have hMAX : MAX (-5) G_MINDOUBLE = G_MINDOUBLE := by
    unfold MAX
    rw [if_neg (by linarith)]
  have hn : newBounds demoExternal demoModelSunken.objtree =
      (⟨-10, -10, -10⟩, ⟨G_MINDOUBLE, G_MINDOUBLE, G_MINDOUBLE⟩) := by
    rw [newBounds, hb]
    simp only [List.foldl, boundsStep, hMIN, hMAX]
  have hx : ¬ ((-10 : ℚ) > G_MINDOUBLE) := by linarith
  refine ⟨hb, ?_, ?_, by linarith⟩
  · simp only [CalcBoundingBoxAndCenter, hn, hx, if_false]
  · simp only [CalcBoundingBoxAndCenter, hn, hx, if_false]

/-! ## The stored cutting planes across changes of the model -/

/-- The member function `CalcBoundingBoxAndCenter` leaves the stored planes as
they are. -/
theorem CalcBoundingBoxAndCenter_cuttingplanes (E : External) (m : Model) :
    (CalcBoundingBoxAndCenter E m).cuttingplanes = m.cuttingplanes := by
  unfold CalcBoundingBoxAndCenter
  simp only
  split <;> rfl

/-- At the sample model with one stored plane, `ScaleObject` on its shape
leaves that plane stored. -/
theorem ScaleObject_keeps_stored_plane :
    (ScaleObject demoExternal demoModelSliced (some (0, 0)) 2).cuttingplanes =
      [(CuttingPlane.new 0 1).setZ (1 / 2)] := by
  rw [ScaleObject, CalcBoundingBoxAndCenter_cuttingplanes]
  rfl

/-- C6 (the code departs from the claim): `ReadStl` and `DeleteObjTree` leave
the stored cutting planes empty, but `AddStl`, `ScaleObject`, `RotateObject`,
`OptimizeRotation` and `LoadConfig` leave them exactly as they were, so planes
stored before one of these five calls are still stored after it. -/
theorem cuttingplanes_after_model_changes (E : External) (m : Model) (file : String)
    (iter : List ℕ) (parent : Option ℕ) (shape : Shape) (target : Option (ℕ × ℕ)) (scale : ℚ)
    (rotate : Vector4d) :
    (ReadStl E m file).cuttingplanes = [] ∧
    (DeleteObjTree E m iter).cuttingplanes = [] ∧
    (AddStl E m parent shape file).1.cuttingplanes = m.cuttingplanes ∧
    (ScaleObject E m target scale).cuttingplanes = m.cuttingplanes ∧
    (RotateObject E m target rotate).cuttingplanes = m.cuttingplanes ∧
    (OptimizeRotation E m target).cuttingplanes = m.cuttingplanes ∧
    (LoadConfig E m file).cuttingplanes = m.cuttingplanes := by
  refine ⟨rfl, ?_, ?_, ?_, ?_, ?_, ?_⟩
  · rw [DeleteObjTree, CalcBoundingBoxAndCenter_cuttingplanes]
    rfl
  · unfold AddStl
    simp only [CalcBoundingBoxAndCenter_cuttingplanes]
  · cases target with
    | none => rfl
    | some t => rw [ScaleObject, CalcBoundingBoxAndCenter_cuttingplanes]
  · cases target with
    | none => rfl
    | some t => rw [RotateObject, CalcBoundingBoxAndCenter_cuttingplanes]
  · cases target with
    | none => rfl
    | some t => rw [OptimizeRotation, CalcBoundingBoxAndCenter_cuttingplanes]
  · rw [LoadConfig, ModelChanged, CalcBoundingBoxAndCenter_cuttingplanes]

/-! ## `Slicer::displayInfillOld` -/

/-- C7 (the code departs from the claim): with `DisplayinFill` and `ShellOnly`
both true, `displayInfillOld` does not call `CalcInFill`, and then evaluates
`infill->size()` on the null `infill`: it does not complete normally. -/
theorem displayInfillOld_ShellOnly_null_dereference (E : External) (settings : Settings)
    (plane : CuttingPlane) (LayerNr : ℕ) (altInfillLayers : List ℤ)
    (hfill : settings.Display.DisplayinFill = true) (hshell : settings.Slicing.ShellOnly = true) :
    displayInfillOld E settings plane LayerNr altInfillLayers = InfillOutcome.nullDereference := by
  simp [displayInfillOld, hfill, hshell]

/-- C7 at the sample settings with `ShellOnly` switched on. -/
theorem displayInfillOld_ShellOnly_null_dereference_witness :
    ({ demoSettings with Slicing := { demoSettings.Slicing with ShellOnly := true } } :
        Settings).Display.DisplayinFill = true ∧
    ({ demoSettings with Slicing := { demoSettings.Slicing with ShellOnly := true } } :
        Settings).Slicing.ShellOnly = true ∧
    displayInfillOld demoExternal
        { demoSettings with Slicing := { demoSettings.Slicing with ShellOnly := true } }
        ((CuttingPlane.new 3 1).setZ (7 / 2)) 3 [3, 7] = InfillOutcome.nullDereference :=
  ⟨rfl, rfl,
    displayInfillOld_ShellOnly_null_dereference demoExternal
      { demoSettings with Slicing := { demoSettings.Slicing with ShellOnly := true } }
      ((CuttingPlane.new 3 1).setZ (7 / 2)) 3 [3, 7] rfl rfl⟩

/-! ## Infill rotation -/

/-- With `DisplayinFill` on and `ShellOnly` off, `displayInfillOld` calls
`CalcInFill` once, with the default `InfillRotation`, and with
`AltInfillDistance` on the layers of the alternate-infill list and
`InfillDistance` on the others. -/
theorem displayInfillOld_call (E : External) (settings : Settings) (plane : CuttingPlane)
    (LayerNr : ℕ) (altInfillLayers : List ℤ)
    (hfill : settings.Display.DisplayinFill = true)
    (hshell : settings.Slicing.ShellOnly = false) :
    ∃ call vertices,
      displayInfillOld E settings plane LayerNr altInfillLayers =
        InfillOutcome.drawn call vertices ∧
      call.InfillRotation = settings.Slicing.InfillRotation ∧
      call.InfillDistance =
        (if isAltInfillLayer altInfillLayers LayerNr then settings.Slicing.AltInfillDistance
         else settings.Slicing.InfillDistance) := by
  simp [displayInfillOld, hfill, hshell]

/-- C9, refuted as stated: in the sample snapshot layer 3 is in the
alternate-infill list and the alternate rotation is `90`, yet neither
`drawCuttingPlanes` nor `displayInfillOld` hands `90` to the infill generator
on layer 3. -/
theorem alt_layer_rotation_counterexample :
    isAltInfillLayer
      (demoExternal.GetAltInfillLayers demoModel.settings.Slicing (LayerCount demoModel)) 3 = true ∧
    ¬ (∀ p c, (drawCuttingPlanes demoExternal demoModel).get? 3 = some (DrawnPlane.sliced p) →
        p.calcInfill = some c → c.InfillRotation = demoAltInfillRotation) ∧
    ¬ (∀ call vertices,
        displayInfillOld demoExternal demoSettings ((CuttingPlane.new 3 1).setZ (7 / 2)) 3 [3, 7] =
          InfillOutcome.drawn call vertices →
        call.InfillRotation = demoAltInfillRotation) := by
  refine ⟨by decide, ?_, ?_⟩
  · intro h
    have hc := h _ _ (demoModel_pass 3 (by norm_num))
      (slicePlane_calcInfill demoExternal demoModel [3, 7] 3 _ rfl)
    norm_num [demoModel, demoSettings, demoAltInfillRotation] at hc
  · intro h
    obtain ⟨call, vs, h1, h2, _⟩ :=
      displayInfillOld_call demoExternal demoSettings ((CuttingPlane.new 3 1).setZ (7 / 2)) 3
        [3, 7] rfl rfl
    have hc := h call vs h1
    rw [h2] at hc
    norm_num [demoSettings, demoAltInfillRotation] at hc

/-- C9, amended: on every layer, in the alternate-infill list or not, the
rotation handed to the infill generator is the default `InfillRotation`: in
`drawCuttingPlanes` without stored planes and with `DisplayinFill` on (call to
`CalcInfill`), and in `displayInfillOld` with `DisplayinFill` on and `ShellOnly`
off (call to `CalcInFill`). -/
theorem infill_rotation_always_default (E : External) (m : Model)
    (hm : m.cuttingplanes = []) (hfill : m.settings.Display.DisplayinFill = true)
    (k : ℕ) (d : DrawnPlane) (hd : (drawCuttingPlanes E m).get? k = some d)
    (settings : Settings) (plane : CuttingPlane) (LayerNr : ℕ) (altInfillLayers : List ℤ)
    (hfill' : settings.Display.DisplayinFill = true)
    (hshell : settings.Slicing.ShellOnly = false) :
    (∃ p c, d = DrawnPlane.sliced p ∧ p.plane.LayerNo = firstLayerNr m + k ∧
      p.calcInfill = some c ∧ c.InfillRotation = m.settings.Slicing.InfillRotation) ∧
    (∃ call vertices,
      displayInfillOld E settings plane LayerNr altInfillLayers =
        InfillOutcome.drawn call vertices ∧
      call.InfillRotation = settings.Slicing.InfillRotation) := by
  constructor
  · rw [drawCuttingPlanes_get? E m hm k] at hd
    split at hd
    · simp only [Option.some.injEq] at hd
      exact ⟨_, _, hd.symm, (slicePlane_plane E m _ _ _).1,
        slicePlane_calcInfill E m _ _ _ hfill, rfl⟩
    · exact absurd hd (by simp)
  · obtain ⟨call, vs, h1, h2, _⟩ :=
      displayInfillOld_call E settings plane LayerNr altInfillLayers hfill' hshell
    exact ⟨call, vs, h1, h2⟩

/-- C9 amended, at the sample snapshot: on layer 3, which is in the
alternate-infill list, both functions hand the default rotation `45` to the
infill generator. -/
theorem infill_rotation_always_default_witness :
    demoModel.cuttingplanes = [] ∧ demoModel.settings.Display.DisplayinFill = true ∧
    demoSettings.Slicing.ShellOnly = false ∧ isAltInfillLayer [3, 7] 3 = true ∧
    (∃ p c, (drawCuttingPlanes demoExternal demoModel).get? 3 = some (DrawnPlane.sliced p) ∧
      p.plane.LayerNo = 3 ∧ p.calcInfill = some c ∧ c.InfillRotation = 45) ∧
    (∃ call vertices,
      displayInfillOld demoExternal demoSettings ((CuttingPlane.new 3 1).setZ (7 / 2)) 3 [3, 7] =
        InfillOutcome.drawn call vertices ∧
      call.InfillRotation = 45) := by
  obtain ⟨⟨p, c, h1, h2, h3, h4⟩, ⟨call, vs, h5, h6⟩⟩ :=
    infill_rotation_always_default demoExternal demoModel rfl rfl 3 _
      (demoModel_pass 3 (by norm_num)) demoSettings ((CuttingPlane.new 3 1).setZ (7 / 2)) 3
      [3, 7] rfl rfl
  refine ⟨rfl, rfl, rfl, by decide, ⟨p, c, ?_, ?_, h3, ?_⟩, ⟨call, vs, h5, ?_⟩⟩
  · rw [demoModel_pass 3 (by norm_num), h1]
  · rw [h2, demoModel_first.1]
  · rw [h4]
    rfl
  · rw [h6]
    rfl

/-! ## `Model::FindEmptyLocation` -/

/-- The comparison `ClosestToOrigin(a, b)` holds exactly when `a` has the
smaller squared distance to the origin. -/
theorem ClosestToOrigin_iff (a b : Vector3d) : ClosestToOrigin a b = true ↔ sqDist a < sqDist b := by
  simp [ClosestToOrigin, sqDist]

/-- The order the candidates are sorted by: `b` is not closer to the origin
than `a`. -/
theorem ClosestToOrigin_eq_false_iff (a b : Vector3d) :
    ClosestToOrigin b a = false ↔ sqDist a ≤ sqDist b := by
  rw [← Bool.not_eq_true, ClosestToOrigin_iff, not_lt]

/-- In a list sorted by a reflexive relation, the first element that passes a
test is related to every element that passes it. -/
theorem find?_sorted_first {α : Type} (r : α → α → Prop) (hrefl : ∀ a, r a a) (p : α → Bool) :
    ∀ (l : List α), l.Pairwise r → ∀ x, l.find? p = some x → ∀ c ∈ l, p c = true → r x c := by
  intro l
  induction l with
  | nil =>
    intro _ x hx
    simp at hx
  | cons a t ih =>
    intro hs x hx c hc hpc
    rw [List.pairwise_cons] at hs
    by_cases hpa : p a = true
    · rw [List.find?_cons_of_pos _ hpa] at hx
      have hxa : a = x := Option.some.inj hx
      subst hxa
      rcases List.mem_cons.mp hc with h | h
      · rw [h]
        exact hrefl a
      · exact hs.1 c h
    · rw [List.find?_cons_of_neg _ hpa] at hx
      rcases List.mem_cons.mp hc with h | h
      · rw [h] at hpc
        exact absurd hpc hpa
      · exact ih hs.2 x hx c h hpc

/-- The sorted candidate list holds the same positions as the unsorted one and
is ordered by squared distance to the origin. -/
theorem sorted_candidates (l : List Vector3d) :
    (∀ c, c ∈ l.insertionSort (fun a b => ClosestToOrigin b a = false) ↔ c ∈ l) ∧
    (l.insertionSort (fun a b => ClosestToOrigin b a = false)).Pairwise
      (fun a b => ClosestToOrigin b a = false) := by
  haveI : IsTotal Vector3d (fun a b => ClosestToOrigin b a = false) :=
    ⟨fun a b => by
      simp only [ClosestToOrigin_eq_false_iff]
      exact le_total _ _⟩
  haveI : IsTrans Vector3d (fun a b => ClosestToOrigin b a = false) :=
    ⟨fun a b c hab hbc => by
      simp only [ClosestToOrigin_eq_false_iff] at *
      exact le_trans hab hbc⟩
  exact ⟨fun c => List.mem_insertionSort _, List.sorted_insertionSort _ l⟩

/-- With at least one existing shape, the flag `ok` of a candidate is true
exactly when the candidate collides with no existing shape and lies inside the
volume. -/
theorem candidateOk_iff_of_ne_nil (h : HardwareSettings) (d : ℚ) (StlDelta c : Vector3d)
    (positions : List (Vector3d × Vector3d)) (hne : positions ≠ []) :
    candidateOk h d StlDelta c positions = true ↔
      (∀ mm ∈ positions, collides d StlDelta c mm = false) ∧ outsideVolume h StlDelta c = false := by
  induction positions with
  | nil => exact absurd rfl hne
  | cons mm rest ih =>
    by_cases hc : collides d StlDelta c mm = true
    · simp [candidateOk, hc]
    · by_cases ho : outsideVolume h StlDelta c = true
      · simp [candidateOk, hc, ho]
      · cases rest with
        | nil => simp [candidateOk, hc, ho]
        | cons mm' rest' =>
          have ih' := ih (by simp)
          simp only [Bool.not_eq_true] at hc ho
          rw [candidateOk, if_neg (by simp [hc]), if_neg (by simp [ho]), ih']
          simp [hc, ho]

/-- With no existing shape, the flag `ok` of every candidate is true: the loop
that holds the volume test has no pass. -/
theorem candidateOk_nil (h : HardwareSettings) (d : ℚ) (StlDelta c : Vector3d) :
    candidateOk h d StlDelta c [] = true := rfl

/-- The position `FindEmptyLocation` returns is a generated candidate whose flag
`ok` is true and that no candidate with a true flag beats in squared distance
to the origin; there is no returned position exactly when no candidate has a
true flag. -/
theorem FindEmptyLocation_first_passing (m : Model) (shape : Shape) :
    (∀ r, FindEmptyLocation m shape = some r →
      r ∈ candidatePositions 5 (objectPositions m.objtree) ∧
      candidateOk m.settings.Hardware 5 (shape.Max.sub shape.Min) r (objectPositions m.objtree) =
        true ∧
      ∀ c ∈ candidatePositions 5 (objectPositions m.objtree),
        candidateOk m.settings.Hardware 5 (shape.Max.sub shape.Min) c (objectPositions m.objtree) =
          true →
        ¬ sqDist c < sqDist r) ∧
    (FindEmptyLocation m shape = none ↔
      ∀ c ∈ candidatePositions 5 (objectPositions m.objtree),
        candidateOk m.settings.Hardware 5 (shape.Max.sub shape.Min) c (objectPositions m.objtree) =
          false) := by
  have hs := sorted_candidates (candidatePositions 5 (objectPositions m.objtree))
  refine ⟨?_, ?_⟩
  · intro r hr
    unfold FindEmptyLocation at hr
    simp only at hr
    have hok := List.find?_some hr
    simp only at hok
    refine ⟨(hs.1 r).mp (List.mem_of_find?_eq_some hr), hok, ?_⟩
    intro c hc hok
    have hrel : ClosestToOrigin c r = false :=
      find?_sorted_first (fun a b => ClosestToOrigin b a = false)
        (fun a => by simp [ClosestToOrigin]) _ _ hs.2 r hr c ((hs.1 c).mpr hc) hok
    rw [ClosestToOrigin_eq_false_iff] at hrel
    exact not_lt.mpr hrel
  · unfold FindEmptyLocation
    simp only [List.find?_eq_none, Bool.not_eq_true]
    constructor
    · intro h c hc
      exact h c ((hs.1 c).mpr hc)
    · intro h c hc
      exact h c ((hs.1 c).mp hc)

/-- Only the origin has squared distance zero or less. -/
theorem eq_origin_of_sqDist_le_zero (r : Vector3d) (h : sqDist r ≤ 0) : r = ⟨0, 0, 0⟩ := by
  unfold sqDist at h
  have hx := mul_self_nonneg r.x
  have hy := mul_self_nonneg r.y
  have hz := mul_self_nonneg r.z
  have hx0 : r.x = 0 := mul_self_eq_zero.mp (by linarith)
  have hy0 : r.y = 0 := mul_self_eq_zero.mp (by linarith)
  have hz0 : r.z = 0 := mul_self_eq_zero.mp (by linarith)
  cases r
  simp only at hx0 hy0 hz0
  rw [hx0, hy0, hz0]

/-- When the flag `ok` of the candidate `(0, 0, 0)` is true, `FindEmptyLocation`
returns `(0, 0, 0)`, whichever way the candidates of equal distance are
ordered. -/
theorem FindEmptyLocation_origin (m : Model) (shape : Shape)
    (hok : candidateOk m.settings.Hardware 5 (shape.Max.sub shape.Min) ⟨0, 0, 0⟩
      (objectPositions m.objtree) = true) :
    FindEmptyLocation m shape = some ⟨0, 0, 0⟩ := by
  have hmem : (⟨0, 0, 0⟩ : Vector3d) ∈ candidatePositions 5 (objectPositions m.objtree) := by
    simp [candidatePositions]
  have hspec := FindEmptyLocation_first_passing m shape
  cases hres : FindEmptyLocation m shape with
  | none =>
    have := (hspec.2.mp hres) _ hmem
    rw [hok] at this
    exact absurd this (by simp)
  | some r =>
    have hmin := (hspec.1 r hres).2.2 _ hmem hok
    have h0 : sqDist (⟨0, 0, 0⟩ : Vector3d) = 0 := by simp [sqDist]
    rw [h0, not_lt] at hmin
    rw [eq_origin_of_sqDist_le_zero r hmin]

/-- With at least one existing shape, a returned position keeps the shape
inside the printable area in X and Y. -/
theorem FindEmptyLocation_inside_volume_of_ne_nil (m : Model) (shape : Shape) (r : Vector3d)
    (hne : objectPositions m.objtree ≠ []) (hr : FindEmptyLocation m shape = some r) :
    r.x + (shape.Max.x - shape.Min.x) ≤
        m.settings.Hardware.Volume.x - 2 * m.settings.Hardware.PrintMargin.x ∧
      r.y + (shape.Max.y - shape.Min.y) ≤
        m.settings.Hardware.Volume.y - 2 * m.settings.Hardware.PrintMargin.y := by
  have hok := ((FindEmptyLocation_first_passing m shape).1 r hr).2.1
  have hout := ((candidateOk_iff_of_ne_nil _ _ _ _ _ hne).mp hok).2
  simp only [outsideVolume, Vector3d.sub, Bool.or_eq_false_iff, decide_eq_false_iff_not,
    not_lt, gt_iff_lt] at hout
  exact hout

/-- What `FindEmptyLocation` does in terms of its flag `ok`: a returned position
is one of the generated candidates, its flag `ok` is true, and no candidate
whose flag `ok` is true has a strictly smaller squared distance to the origin;
nothing is returned exactly when no candidate has a true flag.  Only with at
least one existing shape is a true flag the same as passing the collision test
against every existing shape and the volume test. -/
theorem FindEmptyLocation_closest_passing (m : Model) (shape : Shape) :
    (∀ r, FindEmptyLocation m shape = some r →
      r ∈ candidatePositions 5 (objectPositions m.objtree) ∧
      candidateOk m.settings.Hardware 5 (shape.Max.sub shape.Min) r (objectPositions m.objtree) =
        true ∧
      ∀ c ∈ candidatePositions 5 (objectPositions m.objtree),
        candidateOk m.settings.Hardware 5 (shape.Max.sub shape.Min) c (objectPositions m.objtree) =
          true →
        ¬ sqDist c < sqDist r) ∧
    (FindEmptyLocation m shape = none ↔
      ∀ c ∈ candidatePositions 5 (objectPositions m.objtree),
        candidateOk m.settings.Hardware 5 (shape.Max.sub shape.Min) c (objectPositions m.objtree) =
          false) ∧
    (objectPositions m.objtree ≠ [] →
      ∀ c,
        candidateOk m.settings.Hardware 5 (shape.Max.sub shape.Min) c (objectPositions m.objtree) =
          true ↔
        (∀ mm ∈ objectPositions m.objtree, collides 5 (shape.Max.sub shape.Min) c mm = false) ∧
          outsideVolume m.settings.Hardware (shape.Max.sub shape.Min) c = false) :=
  ⟨(FindEmptyLocation_first_passing m shape).1, (FindEmptyLocation_first_passing m shape).2,
    fun hne _ => candidateOk_iff_of_ne_nil _ _ _ _ _ hne⟩

/-- C11 (the code departs from the claim): with no existing shape,
`FindEmptyLocation` returns true with the position `(0, 0, 0)` for every shape,
whatever its size: the volume test stands inside the loop over the existing
shapes and is never reached. -/
theorem FindEmptyLocation_without_shapes (m : Model) (shape : Shape)
    (hnone : objectPositions m.objtree = []) :
    FindEmptyLocation m shape = some ⟨0, 0, 0⟩ := by
  apply FindEmptyLocation_origin
  rw [hnone]
  rfl

/-- C11 at the sample model with an empty object tree (`Volume = 200 x 200`,
`PrintMargin = 10 x 10`) and a shape of 300 by 300: the returned position is
`(0, 0, 0)`, and the shape placed there ends at 300, beyond `200 - 2 * 10` in X
and in Y. -/
theorem FindEmptyLocation_without_shapes_witness :
    objectPositions demoModelEmpty.objtree = [] ∧
    FindEmptyLocation demoModelEmpty demoShapeOversize = some ⟨0, 0, 0⟩ ∧
    ¬ ((0 : ℚ) + (demoShapeOversize.Max.x - demoShapeOversize.Min.x) ≤
        demoModelEmpty.settings.Hardware.Volume.x -
          2 * demoModelEmpty.settings.Hardware.PrintMargin.x) ∧
    ¬ ((0 : ℚ) + (demoShapeOversize.Max.y - demoShapeOversize.Min.y) ≤
        demoModelEmpty.settings.Hardware.Volume.y -
          2 * demoModelEmpty.settings.Hardware.PrintMargin.y) := by
  have hnone : objectPositions demoModelEmpty.objtree = [] := by
    simp [objectPositions, indexedShapes, demoModelEmpty, List.enum, List.enumFrom]
  refine ⟨hnone, FindEmptyLocation_without_shapes demoModelEmpty demoShapeOversize hnone, ?_, ?_⟩
  · norm_num [demoShapeOversize, box, demoModelEmpty, demoModel, demoSettings]
  · norm_num [demoShapeOversize, box, demoModelEmpty, demoModel, demoSettings]

/-- C12 (the code departs from the claim): in the sample model the only existing
shape covers `[-11, -1]` in X and in Y, and the shape to place is 10 by 10.
`FindEmptyLocation` returns true with `(0, 0, 0)`, so the new footprint
`[0, 10] x [0, 10]` lies 1 from the existing one along X and 1 along Y: the
footprints are 5 apart along neither axis. -/
theorem FindEmptyLocation_spacing_off_bed :
    objectPositions demoModelOffBed.objtree = [(⟨-11, -11, 0⟩, ⟨-1, -1, 0⟩)] ∧
    demoShapeSmall.Max.sub demoShapeSmall.Min = ⟨10, 10, 10⟩ ∧
    FindEmptyLocation demoModelOffBed demoShapeSmall = some ⟨0, 0, 0⟩ ∧
    ¬ (∀ r, FindEmptyLocation demoModelOffBed demoShapeSmall = some r →
        ∀ mm ∈ objectPositions demoModelOffBed.objtree,
          (mm.2.x + 5 ≤ r.x ∨ r.x + (demoShapeSmall.Max.x - demoShapeSmall.Min.x) + 5 ≤ mm.1.x) ∨
          (mm.2.y + 5 ≤ r.y ∨ r.y + (demoShapeSmall.Max.y - demoShapeSmall.Min.y) + 5 ≤ mm.1.y)) := by
  have hpos : objectPositions demoModelOffBed.objtree = [(⟨-11, -11, 0⟩, ⟨-1, -1, 0⟩)] := by
    simp [objectPositions, indexedShapes, demoModelOffBed, translationOnly, Vector3d.sub,
      Matrix4d.getTranslation, List.enum, List.enumFrom]
    norm_num
  have hdelta : demoShapeSmall.Max.sub demoShapeSmall.Min = ⟨10, 10, 10⟩ := by
    simp [demoShapeSmall, box, Vector3d.sub]
  have hres : FindEmptyLocation demoModelOffBed demoShapeSmall = some ⟨0, 0, 0⟩ := by
    apply FindEmptyLocation_origin
    rw [hpos, hdelta]
    simp only [candidateOk, collides, outsideVolume, demoModelOffBed, demoModel, demoSettings]
    norm_num
  refine ⟨hpos, hdelta, hres, ?_⟩
  intro h
  have hcl := h _ hres (⟨-11, -11, 0⟩, ⟨-1, -1, 0⟩) (by rw [hpos]; simp)
  norm_num [demoShapeSmall, box] at hcl

/-- The same lack of spacing at non-negative positions: with existing shapes
covering `[0, 10] x [0, 10]` and `[0, 6] x [10, 11]`, a shape of 10 by 10 is
placed at `(11, 10, 0)`, 1 from the first shape along X and touching its range
along Y. -/
theorem FindEmptyLocation_spacing_two_shapes :
    objectPositions demoModelTwoShapes.objtree =
      [(⟨0, 0, 0⟩, ⟨10, 10, 0⟩), (⟨0, 10, 0⟩, ⟨6, 11, 0⟩)] ∧
    FindEmptyLocation demoModelTwoShapes demoShapeSmall = some ⟨11, 10, 0⟩ := by
  have hpos : objectPositions demoModelTwoShapes.objtree =
      [(⟨0, 0, 0⟩, ⟨10, 10, 0⟩), (⟨0, 10, 0⟩, ⟨6, 11, 0⟩)] := by
    simp [objectPositions, indexedShapes, demoModelTwoShapes, translationOnly, Vector3d.sub,
      Matrix4d.getTranslation, List.enum, List.enumFrom]
    norm_num
  have hdelta : demoShapeSmall.Max.sub demoShapeSmall.Min = ⟨10, 10, 10⟩ := by
    simp [demoShapeSmall, box, Vector3d.sub]
  refine ⟨hpos, ?_⟩
  unfold FindEmptyLocation
  simp only [hpos, hdelta]
  norm_num [candidatePositions, List.insertionSort, List.orderedInsert, ClosestToOrigin,
    List.find?, candidateOk, collides, outsideVolume, demoModelTwoShapes, demoModel, demoSettings]

/-! ## Divisors in `Model::drawCuttingPlanes` -/

/-- The start value of the maximum is below the start value of the minimum. -/
theorem G_MINDOUBLE_lt_G_MAXDOUBLE : G_MINDOUBLE < G_MAXDOUBLE := by
  have h1 : G_MINDOUBLE ≤ 1 := by
    unfold G_MINDOUBLE
    rw [div_le_one (by positivity)]
    exact one_le_pow₀ (by norm_num)
  have h2 : (1 : ℚ) < G_MAXDOUBLE := by
    unfold G_MAXDOUBLE
    have : (1 : ℚ) ≤ 2 ^ 971 := one_le_pow₀ (by norm_num)
    nlinarith
  linarith

/-- C14 (the code departs from the claim): for a model with no shapes,
`CalcBoundingBoxAndCenter` leaves `Min.z = Max.z = 0`; on the path without
stored planes `drawCuttingPlanes` then divides by `zStep = LayerThickness`,
which is not zero for `LayerThickness > 0`, and by `zSize = 0`. -/
theorem zSize_divisor_zero_without_shapes (E : External) (m : Model)
    (hshapes : indexedShapes m.objtree = []) (hm : m.cuttingplanes = [])
    (ht : 0 < m.settings.Hardware.LayerThickness) :
    (CalcBoundingBoxAndCenter E m).Min.z = 0 ∧ (CalcBoundingBoxAndCenter E m).Max.z = 0 ∧
    m.settings.Hardware.LayerThickness ≠ 0 ∧
    drawDivisors (CalcBoundingBoxAndCenter E m) = [m.settings.Hardware.LayerThickness, 0] := by
  have hn : newBounds E m.objtree =
      (⟨G_MAXDOUBLE, G_MAXDOUBLE, G_MAXDOUBLE⟩, ⟨G_MINDOUBLE, G_MINDOUBLE, G_MINDOUBLE⟩) := by
    simp [newBounds, transformedBounds, hshapes]
  have hgt : G_MAXDOUBLE > G_MINDOUBLE := G_MINDOUBLE_lt_G_MAXDOUBLE
  have hmin : (CalcBoundingBoxAndCenter E m).Min.z = 0 := by
    simp only [CalcBoundingBoxAndCenter, hn, hgt, if_true]
  have hmax : (CalcBoundingBoxAndCenter E m).Max.z = 0 := by
    simp only [CalcBoundingBoxAndCenter, hn, hgt, if_true]
  have hplanes : have_planes (CalcBoundingBoxAndCenter E m) = false := by
    apply have_planes_of_nil
    rw [CalcBoundingBoxAndCenter_cuttingplanes, hm]
  have hstep : zStep (CalcBoundingBoxAndCenter E m) = m.settings.Hardware.LayerThickness := by
    simp only [zStep, CalcBoundingBoxAndCenter, hn, hgt, if_true]
  refine ⟨hmin, hmax, ne_of_gt ht, ?_⟩
  rw [drawDivisors, hplanes]
  simp only [Bool.false_eq_true, if_false, hstep, zSize, hmin, hmax, sub_zero]

/-- C14 at the sample model with an empty object tree and `LayerThickness = 1`:
the divisors are `1` and `0`. -/
theorem zSize_divisor_zero_without_shapes_witness :
    indexedShapes demoModelEmpty.objtree = [] ∧ demoModelEmpty.cuttingplanes = [] ∧
    0 < demoModelEmpty.settings.Hardware.LayerThickness ∧
    drawDivisors (CalcBoundingBoxAndCenter demoExternal demoModelEmpty) = [1, 0] := by
  have hshapes : indexedShapes demoModelEmpty.objtree = [] := by
    simp [indexedShapes, demoModelEmpty, List.enum, List.enumFrom]
  have ht : 0 < demoModelEmpty.settings.Hardware.LayerThickness := by
    norm_num [demoModelEmpty, demoModel, demoSettings]
  refine ⟨hshapes, rfl, ht, ?_⟩
  rw [(zSize_divisor_zero_without_shapes demoExternal demoModelEmpty hshapes rfl ht).2.2.2]
  rfl

/-! ## The loop is bounded by the layer number -/

/-- C13 (the code departs from the claim): in the sample model with an empty
object tree the only generated candidate is `(0, 0, 0)`.  For a shape of 300 by
300 that candidate fails the volume test, so no candidate passes the collision
and volume checks; yet `FindEmptyLocation` returns true, with `(0, 0, 0)`. -/
theorem FindEmptyLocation_returns_untested_candidate :
    candidatePositions 5 (objectPositions demoModelEmpty.objtree) = [⟨0, 0, 0⟩] ∧
    (∀ c ∈ candidatePositions 5 (objectPositions demoModelEmpty.objtree),
      outsideVolume demoModelEmpty.settings.Hardware
        (demoShapeOversize.Max.sub demoShapeOversize.Min) c = true) ∧
    FindEmptyLocation demoModelEmpty demoShapeOversize = some ⟨0, 0, 0⟩ ∧
    FindEmptyLocation demoModelEmpty demoShapeOversize ≠ none := by
  have hnone : objectPositions demoModelEmpty.objtree = [] := by
    simp [objectPositions, indexedShapes, demoModelEmpty, List.enum, List.enumFrom]
  have hcand : candidatePositions 5 (objectPositions demoModelEmpty.objtree) = [⟨0, 0, 0⟩] := by
    rw [hnone]
    rfl
  have hout : outsideVolume demoModelEmpty.settings.Hardware
      (demoShapeOversize.Max.sub demoShapeOversize.Min) ⟨0, 0, 0⟩ = true := by
    simp only [outsideVolume, demoShapeOversize, box, Vector3d.sub, demoModelEmpty, demoModel,
      demoSettings]
    norm_num
  have hres : FindEmptyLocation demoModelEmpty demoShapeOversize = some ⟨0, 0, 0⟩ := by
    apply FindEmptyLocation_origin
    rw [hnone]
    rfl
  refine ⟨hcand, ?_, hres, by rw [hres]; simp⟩
  intro c hc
  rw [hcand, List.mem_singleton] at hc
  rw [hc]
  exact hout

end Repsnapper
